import Mathlib

/-!
Shallow embedding of the AuraForge generation core
(`src-tauri/src/docgen/{quality,confidence,mod}.rs` and
`src-tauri/src/llm/mod.rs`) together with theorems settling the frozen
claims about the readiness/confidence analyzers, the document-generation
orchestrator and the streaming provider client.

Rust machine integers are modelled as `Nat`/`Int` (all quantities stay far
below their type bounds, noted at the cast sites), `f64` intermediate
values as exact rational arithmetic with round-half-away-from-zero (all
call sites round nonnegative values, noted where it matters), effects
(database, HTTP, clock, JSON library) as explicit environment parameters.
-/

namespace AuraForge

/-! ## String utilities mirroring the Rust `str` primitives used by the core -/

/-- `char::to_ascii_lowercase`: lower-case ASCII letters only. -/
def asciiLowerChar (c : Char) : Char :=
  if 'A' ≤ c ∧ c ≤ 'Z' then Char.ofNat (c.toNat + 32) else c

/-- `str::to_ascii_lowercase`. -/
def asciiLower (s : String) : String :=
  String.mk (s.toList.map asciiLowerChar)

/-- Substring occurrence test on character lists: `pat` is a prefix of some
suffix of `l`. -/
def listHasInfix (pat : List Char) : List Char → Bool
  | [] => pat.isPrefixOf []
  | c :: rest => pat.isPrefixOf (c :: rest) || listHasInfix pat rest

/-- `str::contains(pat)` for a string pattern: substring test. Byte-level
substring search on valid UTF-8 coincides with character-level search
(UTF-8 is self-synchronizing), so the character-list infix test is exact. -/
def containsSubstr (s pat : String) : Bool :=
  listHasInfix pat.toList s.toList

/-- Fuel-driven core of `str::matches(pat).count()`: leftmost non-overlapping
occurrences, advancing past each match. Fuel is the remaining length, which
bounds the number of steps. -/
def countSubstrAux (pat : List Char) : Nat → List Char → Nat
  | 0, _ => 0
  | _, [] => 0
  | Nat.succ fuel, c :: rest =>
    if pat.isPrefixOf (c :: rest) then
      1 + countSubstrAux pat fuel ((c :: rest).drop pat.length)
    else
      countSubstrAux pat fuel rest

/-- `s.matches(pat).count()`. -/
def countSubstr (s pat : String) : Nat :=
  countSubstrAux pat.toList s.toList.length s.toList

/-- Rust `char::is_whitespace`: the Unicode `White_Space` property. -/
def isRustWhitespace (c : Char) : Bool :=
  let n := c.toNat
  (0x09 ≤ n ∧ n ≤ 0x0D) ∨ n = 0x20 ∨ n = 0x85 ∨ n = 0xA0 ∨ n = 0x1680 ∨
    (0x2000 ≤ n ∧ n ≤ 0x200A) ∨ n = 0x2028 ∨ n = 0x2029 ∨ n = 0x202F ∨
    n = 0x205F ∨ n = 0x3000

/-- Rust `str::trim_start`. -/
def strTrimStart (s : String) : String :=
  String.mk (s.toList.dropWhile isRustWhitespace)

/-- Rust `str::trim`. -/
def strTrim (s : String) : String :=
  String.mk
    (((s.toList.dropWhile isRustWhitespace).reverse.dropWhile
      isRustWhitespace).reverse)

/-- Rust `str::starts_with` for a string or single-character pattern. -/
def strStartsWith (s pat : String) : Bool :=
  pat.toList.isPrefixOf s.toList

/-- Fuel-driven core of `str::replace`: replace the leftmost non-overlapping
occurrences of `pat`, scanning left to right. The fuel is the input length;
each step consumes at least one character. -/
def strReplaceAux (pat rep : List Char) : Nat → List Char → List Char
  | 0, l => l
  | Nat.succ fuel, l =>
    match l with
    | [] => []
    | c :: rest =>
      if pat ≠ [] ∧ pat.isPrefixOf (c :: rest) then
        rep ++ strReplaceAux pat rep fuel ((c :: rest).drop pat.length)
      else c :: strReplaceAux pat rep fuel rest

/-- Rust `str::replace` (every placeholder pattern used by the orchestrator
is non-empty). -/
def strReplace (s pat rep : String) : String :=
  String.mk (strReplaceAux pat.toList rep.toList s.toList.length s.toList)

/-- `(num / den * 1).round()` for nonnegative rationals expressed over `Nat`:
round half away from zero (which `f64::round` uses; for nonnegative values
this is round half up). Division is modelled exactly; see the module header. -/
def roundDiv (num den : Nat) : Nat :=
  (2 * num + den) / (2 * den)

/-! ## Value types (`src-tauri/src/types.rs`) -/

/-- `types.rs` `Message`. -/
structure Message where
  id : String
  session_id : String
  role : String
  content : String
  metadata : Option String
  created_at : String
deriving DecidableEq, Repr

/-- `types.rs` `Session`. -/
structure Session where
  id : String
  name : String
  description : Option String
  status : String
  created_at : String
  updated_at : String
deriving DecidableEq, Repr

/-- `types.rs` `GeneratedDocument`. -/
structure GeneratedDocument where
  id : String
  session_id : String
  filename : String
  content : String
  created_at : String
deriving DecidableEq, Repr

/-- `types.rs` `QualityReport` (`score: u8`; the analyzer clamps it to
`[0, 100]` so the `Nat` model never exceeds the `u8` range there). -/
structure QualityReport where
  score : Nat
  missing_must_haves : List String
  missing_should_haves : List String
  summary : String
deriving DecidableEq, Repr

/-- `types.rs` `CoverageStatus`. -/
inductive CoverageStatus where
  | Missing
  | Partial
  | Covered
deriving DecidableEq, Repr

/-- `types.rs` `CoverageTopic`. -/
structure CoverageTopic where
  topic : String
  status : CoverageStatus
  evidence_message_ids : List String
deriving DecidableEq, Repr

/-- `types.rs` `CoverageReport`. -/
structure CoverageReport where
  must_have : List CoverageTopic
  should_have : List CoverageTopic
  missing_must_haves : Nat
  missing_should_haves : Nat
  summary : String
deriving DecidableEq, Repr

/-- `types.rs` `ConfidenceFactor` (`max_points`, `points: u8`; all values the
analyzer produces are at most 64, within `u8` range). -/
structure ConfidenceFactor where
  name : String
  max_points : Nat
  points : Nat
  detail : String
deriving DecidableEq, Repr

/-- `types.rs` `ConfidenceReport`. -/
structure ConfidenceReport where
  score : Nat
  factors : List ConfidenceFactor
  blocking_gaps : List String
  summary : String
deriving DecidableEq, Repr

/-- `types.rs` `ForgeTarget`. -/
inductive ForgeTarget where
  | Claude
  | Codex
  | Cursor
  | Gemini
  | Generic
deriving DecidableEq, Repr

/-- `ForgeTarget::as_str`. -/
def ForgeTarget.as_str : ForgeTarget → String
  | .Claude => "claude"
  | .Codex => "codex"
  | .Cursor => "cursor"
  | .Gemini => "gemini"
  | .Generic => "generic"

/-! ## Readiness analyzer (`src-tauri/src/docgen/quality.rs`) -/

/-- `quality.rs` `MUST_HAVE_TOPICS`. -/
def MUST_HAVE_TOPICS : List (String × List String) :=
  [("Problem statement / why this exists",
    ["problem", "goal", "why", "build", "need", "pain point"]),
   ("Core user flow (step-by-step)",
    ["flow", "workflow", "step", "screen", "journey", "user does"]),
   ("Tech stack with rationale",
    ["stack", "react", "rust", "database", "framework", "tauri", "why this"]),
   ("Data model / persistence strategy",
    ["data", "schema", "entity", "table", "persist", "storage"]),
   ("Scope boundaries (what is out for v1)",
    ["scope", "mvp", "v1", "out of scope", "not included", "later"])]

/-- `quality.rs` `SHOULD_HAVE_TOPICS`. -/
def SHOULD_HAVE_TOPICS : List (String × List String) :=
  [("Error handling approach",
    ["error", "failure", "retry", "fallback", "recover"]),
   ("Design trade-offs / decisions",
    ["trade-off", "tradeoff", "decision", "chose", "alternative"]),
   ("Testing strategy",
    ["test", "verification", "qa", "integration test", "unit test"]),
   ("Security considerations",
    ["security", "auth", "permissions", "privacy", "threat"]),
   ("Performance requirements",
    ["performance", "latency", "throughput", "memory", "optimize"])]

/-- `HashSet::insert` on the matched-keyword set, modelled as a duplicate-free
list (the code only reads the set's size and emptiness). -/
def insertKw (acc : List String) (kw : String) : List String :=
  if kw ∈ acc then acc else acc ++ [kw]

/-- Inner `for keyword in *keywords` loop of `evaluate_topics`: accumulates the
matched-keyword set and the `matched_this_message` flag. -/
def matchKeywordsAux (content : String) (matched : List String) (flag : Bool) :
    List String → List String × Bool
  | [] => (matched, flag)
  | kw :: rest =>
    if containsSubstr content kw then
      matchKeywordsAux content (insertKw matched kw) true rest
    else
      matchKeywordsAux content matched flag rest

/-- Outer `for message in messages` loop of `evaluate_topics`: accumulates
`evidence_message_ids` (capped at 4) and the matched-keyword set. -/
def evalTopicMessages (keywords : List String) :
    List Message → List String → List String → List String × List String
  | [], ids, matched => (ids, matched)
  | m :: rest, ids, matched =>
    let content := asciiLower m.content
    let step := matchKeywordsAux content matched false keywords
    let ids2 := if step.2 && decide (ids.length < 4) then ids ++ [m.id] else ids
    evalTopicMessages keywords rest ids2 step.1

/-- `quality.rs` `evaluate_topics`. -/
def evaluate_topics (topics : List (String × List String)) (messages : List Message) :
    List CoverageTopic :=
  topics.map fun t =>
    let r := evalTopicMessages t.2 messages [] []
    let status :=
      if r.2.isEmpty then CoverageStatus.Missing
      else if 2 ≤ r.2.length ∧ 2 ≤ r.1.length then CoverageStatus.Covered
      else CoverageStatus.Partial
    { topic := t.1, status := status, evidence_message_ids := r.1 }

/-- `quality.rs` `analyze_planning_coverage`. -/
def analyze_planning_coverage (messages : List Message) : CoverageReport :=
  let non_system_messages := messages.filter fun m => m.role ≠ "system"
  let must_have := evaluate_topics MUST_HAVE_TOPICS non_system_messages
  let should_have := evaluate_topics SHOULD_HAVE_TOPICS non_system_messages
  let missing_must_haves :=
    (must_have.filter fun t => t.status = CoverageStatus.Missing).length
  let missing_should_haves :=
    (should_have.filter fun t => t.status = CoverageStatus.Missing).length
  let summary :=
    if missing_must_haves = 0 ∧ missing_should_haves = 0 then
      "Coverage is complete across must-have and should-have planning topics."
    else if missing_must_haves = 0 then
      s!"Must-have coverage is complete. {missing_should_haves} should-have topic(s) are still thin."
    else
      s!"{missing_must_haves} must-have topic(s) still need clarification before high-confidence forge."
  { must_have := must_have, should_have := should_have,
    missing_must_haves := missing_must_haves,
    missing_should_haves := missing_should_haves, summary := summary }

/-- `quality.rs` `analyze_plan_readiness`. The `i32` score arithmetic is
modelled on `Int` (values stay within `i32` bounds) and the final
`score as u8` cast is exact because of the preceding clamp to `[0, 100]`. -/
def analyze_plan_readiness (messages : List Message) : QualityReport :=
  let coverage := analyze_planning_coverage messages
  let missing_must_haves :=
    (coverage.must_have.filter fun t => t.status = CoverageStatus.Missing).map
      fun t => t.topic
  let missing_should_haves :=
    (coverage.should_have.filter fun t => t.status = CoverageStatus.Missing).map
      fun t => t.topic
  let score : Int :=
    100 - (missing_must_haves.length : Int) * 14 - (missing_should_haves.length : Int) * 6
  let clamped : Int := max 0 (min 100 score)
  let summary :=
    if missing_must_haves.isEmpty ∧ missing_should_haves.isEmpty then
      "Planning coverage looks strong. You can forge with high confidence."
    else if missing_must_haves.isEmpty then
      s!"Core planning coverage is good. {missing_should_haves.length} optional topic(s) are still thin."
    else
      s!"{missing_must_haves.length} must-have topic(s) are missing. You can still forge, but expect [TBD] sections."
  { score := clamped.toNat,
    missing_must_haves := missing_must_haves,
    missing_should_haves := missing_should_haves,
    summary := summary }

/-! ## Confidence analyzer (`src-tauri/src/docgen/confidence.rs`)

The source builds one `ConfidenceReport` in a single function, pushing
factors and blocking gaps section by section; each section is embedded as a
named definition and `analyze_generation_confidence` assembles them in the
source's order. -/

/-- `confidence.rs` `REQUIRED_DOCS`. -/
def REQUIRED_DOCS : List String :=
  ["START_HERE.md", "SPEC.md", "CLAUDE.md", "PROMPTS.md", "README.md",
   "MODEL_HANDOFF.md"]

/-- `by_name.contains_key(name)`: the `HashMap` is keyed by filename. -/
def docsContain (docs : List GeneratedDocument) (name : String) : Bool :=
  docs.any fun d => d.filename = name

/-- `by_name.get(name)`: `HashMap` built from an iterator keeps the last
entry for a duplicated key, hence the lookup of the last match. -/
def byNameGet (docs : List GeneratedDocument) (name : String) :
    Option GeneratedDocument :=
  (docs.filter fun d => d.filename = name).getLast?

/-- Factor 1 loop: `present` counter. -/
def requiredPresent (docs : List GeneratedDocument) : Nat :=
  (REQUIRED_DOCS.filter fun name => docsContain docs name).length

/-- Factor 1 loop: blocking gaps pushed for each absent required document,
in `REQUIRED_DOCS` order. -/
def requiredGaps (docs : List GeneratedDocument) : List String :=
  (REQUIRED_DOCS.filter fun name => ¬ docsContain docs name).map
    fun name => s!"Missing required document: {name}"

/-- `confidence.rs` `factor_linear`. -/
def factor_linear (name : String) (max_points passed total : Nat)
    (detail : String) : ConfidenceFactor :=
  let points := if total = 0 then 0 else roundDiv (passed * max_points) total
  { name := name, max_points := max_points, points := points, detail := detail }

/-- Factor 2: the `heading_checks` table. -/
def headingChecks : List (String × List String) :=
  [("SPEC.md", ["# ", "## "]),
   ("PROMPTS.md", ["## Phase", "### Verification Checklist"]),
   ("CLAUDE.md", ["# ", "## Commands"]),
   ("START_HERE.md", ["# ", "## Step-by-Step Setup"])]

/-- Factor 2 loop: `(passed, total_checks, gaps)` accumulated over
`heading_checks`; a document absent from the set contributes nothing. -/
def headingScan (docs : List GeneratedDocument) : Nat × Nat × List String :=
  headingChecks.foldl
    (fun acc entry =>
      match byNameGet docs entry.1 with
      | none => acc
      | some doc =>
        entry.2.foldl
          (fun acc2 marker =>
            if containsSubstr doc.content marker then
              (acc2.1 + 1, acc2.2.1 + 1, acc2.2.2)
            else
              (acc2.1, acc2.2.1 + 1,
               acc2.2.2 ++ [s!"{entry.1} missing expected section marker \x27{marker}\x27"]))
          acc)
    (0, 0, [])

/-- Factor 3: `[TBD` marker count over the three core documents. -/
def tbdCount (docs : List GeneratedDocument) : Nat :=
  (["SPEC.md", "PROMPTS.md", "README.md"].map fun name =>
    match byNameGet docs name with
    | none => 0
    | some doc => countSubstr doc.content "[TBD").sum

/-- Factor 3: total byte length (`String::len`) of the three core documents. -/
def tbdChars (docs : List GeneratedDocument) : Nat :=
  (["SPEC.md", "PROMPTS.md", "README.md"].map fun name =>
    match byNameGet docs name with
    | none => 0
    | some doc => doc.content.utf8ByteSize).sum

/-- Factor 3 tiers: `tbd_density = tbd_count / total_chars` compared against
`0.0005 / 0.001 / 0.002 / 0.004`, as exact rational comparisons
(cross-multiplied). `total_chars == 0` forces density `1.0`, which falls
through every tier to 0 points. -/
def tbdPoints (docs : List GeneratedDocument) : Nat :=
  let tbd := tbdCount docs
  let chars := tbdChars docs
  if chars = 0 then 0
  else if 10000 * tbd ≤ 5 * chars then 20
  else if 1000 * tbd ≤ chars then 15
  else if 1000 * tbd ≤ 2 * chars then 10
  else if 1000 * tbd ≤ 4 * chars then 5
  else 0

/-- Factor 4: `((report.score / 100.0) * 25.0).round() as u8`, or the fixed
default 10 without a readiness report. -/
def readinessPoints (readiness : Option QualityReport) : Nat :=
  match readiness with
  | some report => roundDiv (report.score * 25) 100
  | none => 10

/-- The four factors in push order, reproducing each section's
`ConfidenceFactor` literal. -/
def confidenceFactors (docs : List GeneratedDocument)
    (readiness : Option QualityReport) : List ConfidenceFactor :=
  let scan := headingScan docs
  [factor_linear "Required document coverage" 30 (requiredPresent docs)
     REQUIRED_DOCS.length
     s!"{requiredPresent docs} of {REQUIRED_DOCS.length} required docs generated",
   factor_linear "Document structure sanity" 25 scan.1 (max scan.2.1 1)
     s!"{scan.1} of {scan.2.1} heading/marker checks passed",
   { name := "Unresolved TBD density", max_points := 20,
     points := tbdPoints docs,
     detail := s!"{tbdCount docs} TBD markers across core docs" },
   { name := "Planning readiness carry-over", max_points := 25,
     points := readinessPoints readiness,
     detail :=
       match readiness with
       | some report => s!"Readiness score {report.score} carried into confidence"
       | none => "Readiness unavailable; partial default applied" }]

/-- Blocking gaps in push order: factor 1's missing documents, then factor
2's failed marker checks. -/
def blockingGapsOf (docs : List GeneratedDocument) : List String :=
  requiredGaps docs ++ (headingScan docs).2.2

/-- `add_factor` accumulation of `total_points`. -/
def confidenceTotalPoints (docs : List GeneratedDocument)
    (readiness : Option QualityReport) : Nat :=
  ((confidenceFactors docs readiness).map fun f => f.points).sum

/-- `add_factor` accumulation of `max_points`. -/
def confidenceMaxPoints (docs : List GeneratedDocument)
    (readiness : Option QualityReport) : Nat :=
  ((confidenceFactors docs readiness).map fun f => f.max_points).sum

/-- The pre-cap score `((total_points / max_points) * 100.0).round() as u8`
(values stay at most 164, within `u8`). -/
def rawConfidenceScore (docs : List GeneratedDocument)
    (readiness : Option QualityReport) : Nat :=
  if confidenceMaxPoints docs readiness = 0 then 0
  else roundDiv (confidenceTotalPoints docs readiness * 100)
    (confidenceMaxPoints docs readiness)

/-- `confidence.rs` `analyze_generation_confidence`. -/
def analyze_generation_confidence (docs : List GeneratedDocument)
    (readiness : Option QualityReport) : ConfidenceReport :=
  let blocking_gaps := blockingGapsOf docs
  let score0 := rawConfidenceScore docs readiness
  let score := if ¬ blocking_gaps.isEmpty ∧ 89 < score0 then 89 else score0
  let summary :=
    if blocking_gaps.isEmpty then
      if 85 ≤ score then
        "High confidence: execution pack looks complete and internally consistent."
      else if 70 ≤ score then
        "Medium confidence: pack is usable, but some structure/detail gaps remain."
      else
        "Low confidence: pack likely needs more clarification before implementation."
    else
      s!"Confidence limited by {blocking_gaps.length} blocking gap(s) in required output."
  { score := score, factors := confidenceFactors docs readiness,
    blocking_gaps := blocking_gaps, summary := summary }

/-! ## Error taxonomy (`src-tauri/src/error.rs`) -/

/-- `error.rs` `AppError`. -/
inductive AppError where
  | OllamaConnection (url message : String)
  | ModelNotFound (model : String)
  | LlmRequest (message : String)
  | StreamInterrupted
  | StreamCancelled
  | TavilyError (message : String)
  | SearchRateLimit
  | SearchUnavailable
  | Database (message : String)
  | SessionNotFound (message : String)
  | Config (message : String)
  | FileSystem (path message : String)
  | FolderExists (message : String)
  | Validation (message : String)
deriving DecidableEq, Repr

/-! ## Provider configuration (`src-tauri/src/types.rs`, `src-tauri/src/llm/mod.rs`) -/

/-- `types.rs` `LLMConfig` (`temperature: f64` carried as an exact rational;
the orchestrator never computes with it, it is passed through to the
provider). -/
structure LLMConfig where
  provider : String
  model : String
  base_url : String
  api_key : Option String
  temperature : ℚ
  max_tokens : Nat
deriving DecidableEq, Repr

/-- `types.rs` `SearchConfig`. -/
structure SearchConfig where
  enabled : Bool
  provider : String
  tavily_api_key : String
  searxng_url : String
  proactive : Bool
deriving DecidableEq, Repr

/-- `types.rs` `UIConfig`. -/
structure UIConfig where
  theme : String
deriving DecidableEq, Repr

/-- `types.rs` `OutputConfig`. -/
structure OutputConfig where
  include_conversation : Bool
  default_save_path : String
  default_target : String
  lint_mode : String
deriving DecidableEq, Repr

/-- `types.rs` `AppConfig`. -/
structure AppConfig where
  llm : LLMConfig
  search : SearchConfig
  ui : UIConfig
  output : OutputConfig
deriving DecidableEq, Repr

/-- `llm/mod.rs` `ChatMessage`. -/
structure ChatMessage where
  role : String
  content : String
deriving DecidableEq, Repr

/-- `llm/mod.rs` `ProviderKind` (exactly the two backend kinds the client
implements). -/
inductive ProviderKind where
  | Ollama
  | OpenAiCompatible
deriving DecidableEq, Repr

/-- `ProviderKind::from_provider`: normalize with `trim` +
`to_ascii_lowercase`, then match the known aliases; anything else is a
`Validation` error. The Rust `match` on the normalized string is lowered to
the same decidable-equality chain written here. -/
def ProviderKind.from_provider (provider : String) : Except AppError ProviderKind :=
  let other := asciiLower (strTrim provider)
  if other = "ollama" then Except.ok ProviderKind.Ollama
  else if other = "openai_compatible" ∨ other = "openai-compatible" ∨ other = "lmstudio" then
    Except.ok ProviderKind.OpenAiCompatible
  else
    Except.error (AppError.Validation
      ("Unsupported local provider \x27" ++ other ++ "\x27"))

/-! ## Document generation orchestrator (`src-tauri/src/docgen/mod.rs`)

The orchestrator's collaborators — SQLite store, config mutex, the LLM
client, the wall clock and the `serde_json` metadata decoding — are
modelled as an explicit environment, and the run returns a trace of
provider calls, store calls and emitted events alongside its result. -/

/-- `mod.rs` `format_conversation_for_prompt`. -/
def format_conversation_for_prompt (messages : List Message) : String :=
  (messages.map fun msg =>
    if msg.role = "system" then ""
    else
      let label :=
        if msg.role = "user" then "User"
        else if msg.role = "assistant" then "AuraForge"
        else "Unknown"
      label ++ ": " ++ msg.content ++ "\n\n").foldl (· ++ ·) ""

/-- `prompts.rs` `DOCGEN_SYSTEM_PROMPT`. The literal Markdown prose (the
spec's non-goals exclude it, and no claim depends on it) is abbreviated to
its first line plus the placeholder occurrence that the orchestrator
substitutes. -/
def DOCGEN_SYSTEM_PROMPT : String :=
  "You are a document generator for AuraForge. Use today\x27s date: {current_date}"

/-- `prompts.rs` `SPEC_PROMPT`, abbreviated to its first line and its
placeholders (see `DOCGEN_SYSTEM_PROMPT`). -/
def SPEC_PROMPT : String :=
  "Generate SPEC.md based on the planning conversation.\n{conversation_history}\n{current_date}\n{previously_generated_docs}"

/-- `prompts.rs` `CLAUDE_PROMPT`, abbreviated likewise. -/
def CLAUDE_PROMPT : String :=
  "Generate CLAUDE.md.\n{conversation_history}\n{current_date}\n{previously_generated_docs}"

/-- `prompts.rs` `PROMPTS_PROMPT`, abbreviated likewise. -/
def PROMPTS_PROMPT : String :=
  "Generate PROMPTS.md.\n{conversation_history}\n{current_date}\n{previously_generated_docs}"

/-- `prompts.rs` `README_PROMPT`, abbreviated likewise. -/
def README_PROMPT : String :=
  "Generate README.md.\n{conversation_history}\n{current_date}\n{previously_generated_docs}"

/-- `prompts.rs` `START_HERE_PROMPT`, abbreviated likewise. -/
def START_HERE_PROMPT : String :=
  "Generate START_HERE.md.\n{conversation_history}\n{current_date}\n{previously_generated_docs}"

/-- `mod.rs` `doc_configs`: the fixed declaration order
SPEC → CLAUDE → PROMPTS → README → START_HERE. -/
def doc_configs : List (String × String) :=
  [("SPEC.md", SPEC_PROMPT), ("CLAUDE.md", CLAUDE_PROMPT),
   ("PROMPTS.md", PROMPTS_PROMPT), ("README.md", README_PROMPT),
   ("START_HERE.md", START_HERE_PROMPT)]

/-- Decidable equality for `Except`, needed so traces of provider responses
can be compared computationally. -/
instance {ε α : Type} [DecidableEq ε] [DecidableEq α] : DecidableEq (Except ε α)
  | Except.error e, Except.error f =>
    if h : e = f then Decidable.isTrue (by rw [h]) else Decidable.isFalse (by simp [h])
  | Except.error _, Except.ok _ => Decidable.isFalse (by simp)
  | Except.ok _, Except.error _ => Decidable.isFalse (by simp)
  | Except.ok a, Except.ok b =>
    if h : a = b then Decidable.isTrue (by rw [h]) else Decidable.isFalse (by simp [h])

/-- One recorded `state.ollama.generate` invocation with its outcome. -/
structure ProviderCall where
  config : LLMConfig
  messages : List ChatMessage
  temperature : ℚ
  response : Except AppError String
deriving DecidableEq, Repr

/-- Events emitted through `app.emit` during a run. -/
inductive GenEvent where
  | progress (current total : Nat) (filename session_id : String)
  | complete (session_id : String) (count : Nat)
deriving DecidableEq, Repr

/-- Environment of `generate_all_documents`: the store, the config mutex
(`none` models a poisoned lock), the provider client, the current date
(`chrono::Local::now`) and the `serde_json` extraction of `search_query`
from message metadata. -/
structure DocgenEnv where
  getMessages : Except AppError (List Message)
  getSession : Except AppError Session
  config : Option AppConfig
  today : String
  searchQueryOf : String → Option String
  gen : LLMConfig → List ChatMessage → ℚ → Except AppError String
  replaceDocuments : String → List (String × String) →
    Except AppError (List GeneratedDocument)

/-- Trace of a `generate_all_documents` run. -/
structure RunLog where
  providerCalls : List ProviderCall
  storeCalls : List (String × List (String × String))
  events : List GenEvent

/-- `mod.rs` lines 98–125: generate one document at temperature 0.4,
validate that the output starts with `#` after `trim_start`, retry exactly
once at temperature 0.3 with the amended instruction, and accept the retry
output unconditionally. Returns the draft (or the provider error) plus the
recorded provider calls. -/
def generateDoc (env : DocgenEnv) (config : AppConfig)
    (system_prompt prompt : String) : Except AppError String × List ProviderCall :=
  let llm_messages : List ChatMessage :=
    [{ role := "system", content := system_prompt },
     { role := "user", content := prompt }]
  match env.gen config.llm llm_messages (mkRat 4 10) with
  | Except.error e =>
    (Except.error e, [⟨config.llm, llm_messages, mkRat 4 10, Except.error e⟩])
  | Except.ok content =>
    let call1 : ProviderCall :=
      ⟨config.llm, llm_messages, mkRat 4 10, Except.ok content⟩
    if strStartsWith (strTrimStart content) "#" then
      (Except.ok content, [call1])
    else
      let retry_messages : List ChatMessage :=
        [{ role := "system", content := system_prompt },
         { role := "user",
           content := prompt ++
             "\n\nIMPORTANT: Start with a # heading. Output only valid Markdown." }]
      match env.gen config.llm retry_messages (mkRat 3 10) with
      | Except.error e =>
        (Except.error e,
         [call1, ⟨config.llm, retry_messages, mkRat 3 10, Except.error e⟩])
      | Except.ok content2 =>
        (Except.ok content2,
         [call1, ⟨config.llm, retry_messages, mkRat 3 10, Except.ok content2⟩])

/-- The `for (i, (filename, prompt_template))` loop of
`generate_all_documents`: emits a progress event, builds the prompt from
the template, the conversation, the date and the previously generated
drafts, runs `generateDoc`, and aborts on the first provider error. -/
def genDocsLoop (env : DocgenEnv) (config : AppConfig)
    (conversation system_prompt session_id : String) (total : Nat) :
    List (String × String) → Nat → List (String × String) →
    Except AppError (List (String × String)) × List ProviderCall × List GenEvent
  | [], _, drafts => (Except.ok drafts, [], [])
  | (filename, prompt_template) :: rest, i, drafts =>
    let ev := GenEvent.progress (i + 1) total filename session_id
    let previously_generated :=
      if drafts.isEmpty then "No documents generated yet."
      else
        String.intercalate "\n\n---\n\n"
          (drafts.map fun d => "## " ++ d.1 ++ "\n\n" ++ d.2)
    let prompt :=
      strReplace
        (strReplace (strReplace prompt_template "{conversation_history}"
          conversation) "{current_date}" env.today)
        "{previously_generated_docs}" previously_generated
    let step := generateDoc env config system_prompt prompt
    match step.1 with
    | Except.error e => (Except.error e, step.2, [ev])
    | Except.ok content =>
      let out :=
        genDocsLoop env config conversation system_prompt session_id total rest
          (i + 1) (drafts ++ [(filename, content)])
      (out.1, step.2 ++ out.2.1, ev :: out.2.2)

/-- `mod.rs` `generate_conversation_md`. The `serde_json` extraction of the
optional `search_query` metadata field is the abstracted
`env`-supplied `searchQueryOf`. -/
def generate_conversation_md (searchQueryOf : String → Option String)
    (session : Session) (messages : List Message) : String :=
  let header :=
    "# " ++ session.name ++ " - Planning Conversation\n\n" ++
    "This is the complete planning conversation that generated these documents.\n" ++
    "Kept for reference—you can revisit to understand why decisions were made.\n\n" ++
    "---\n\n**Session started**: " ++ session.created_at ++ "\n\n---\n\n"
  let body :=
    (messages.map fun message =>
      if message.role = "system" then ""
      else
        let role_label :=
          if message.role = "user" then "**User**"
          else if message.role = "assistant" then "**AuraForge**"
          else "**Unknown**"
        let search :=
          match message.metadata with
          | none => ""
          | some metadata_str =>
            match searchQueryOf metadata_str with
            | some query => "*[Searched: " ++ query ++ "]*\n\n"
            | none => ""
        role_label ++ ": " ++ message.content ++ "\n\n" ++ search).foldl (· ++ ·) ""
  header ++ body ++ "---\n\n**Session ended**: " ++ session.updated_at ++ "\n"

/-- `mod.rs` `generate_model_handoff_doc`. -/
def generate_model_handoff_doc (session : Session) (target : ForgeTarget)
    (quality : QualityReport) : String :=
  let target_name :=
    match target with
    | ForgeTarget.Claude => "Claude Code"
    | ForgeTarget.Codex => "OpenAI Codex"
    | ForgeTarget.Cursor => "Cursor Agent"
    | ForgeTarget.Gemini => "Gemini CLI/Agent"
    | ForgeTarget.Generic => "Any Coding Model"
  let head :=
    "# Model Handoff (" ++ target.as_str ++ ")\n\n" ++
    "This execution pack was forged for **" ++ target_name ++
    "** and can be adapted for other coding agents.\n\n## Session\n\n" ++
    "- Project: **" ++ session.name ++ "**\n- Created: " ++ session.updated_at ++
    s!"\n- Planning score: **{quality.score}/100**\n\n## Use This Order\n\n" ++
    "1. Read `START_HERE.md`\n2. Read `SPEC.md`\n3. Read `PROMPTS.md`\n" ++
    "4. Read `CLAUDE.md` for repo conventions (applies broadly even for non-Claude targets)\n\n"
  let missing_must :=
    if quality.missing_must_haves.isEmpty then ""
    else
      "## Missing Must-Haves\n\n" ++
      (quality.missing_must_haves.map fun item => "- " ++ item ++ "\n").foldl (· ++ ·) "" ++
      "\n"
  let missing_should :=
    if quality.missing_should_haves.isEmpty then ""
    else
      "## Missing Should-Haves\n\n" ++
      (quality.missing_should_haves.map fun item => "- " ++ item ++ "\n").foldl (· ++ ·) "" ++
      "\n"
  let target_header :=
    "## Target-Specific Prompt Header\n\n" ++
    (match target with
     | ForgeTarget.Claude =>
       "Use `PROMPTS.md` phases directly in Claude Code, keeping checks after each phase.\n"
     | ForgeTarget.Codex =>
       "Ask Codex to execute one phase at a time from `PROMPTS.md`, always running verification commands before moving to the next phase.\n"
     | ForgeTarget.Cursor =>
       "Use Cursor Agent with one phase at a time, then apply and verify before continuing.\n"
     | ForgeTarget.Gemini =>
       "Use Gemini with explicit phase boundaries and require command output summaries after each phase.\n"
     | ForgeTarget.Generic =>
       "Use any coding model by enforcing phase-by-phase execution from `PROMPTS.md` with validation gates between phases.\n")
  let rules :=
    "\n## Reliability Rules\n\n- Do not skip tests/checks listed in this plan.\n" ++
    "- Do not rewrite architecture unless required by a failing constraint.\n" ++
    "- Keep commits small and scoped to one logical fix/change.\n"
  head ++ missing_must ++ missing_should ++ target_header ++ rules

/-- `mod.rs` `generate_all_documents`: precondition check, the five
provider-generated documents (aborting the run on the first provider
error), the data-derived `CONVERSATION.md` (config-gated) and
`MODEL_HANDOFF.md`, then the single atomic `replace_documents` store call. -/
def generate_all_documents (env : DocgenEnv) (session_id : String)
    (target : ForgeTarget) : Except AppError (List GeneratedDocument) × RunLog :=
  match env.getMessages with
  | Except.error e => (Except.error e, ⟨[], [], []⟩)
  | Except.ok messages =>
    if ¬ messages.any fun m => m.role = "user" then
      (Except.error (AppError.Validation
        "Cannot generate documents from an empty conversation"), ⟨[], [], []⟩)
    else
      match env.getSession with
      | Except.error e => (Except.error e, ⟨[], [], []⟩)
      | Except.ok session =>
        let conversation := format_conversation_for_prompt messages
        match env.config with
        | none =>
          (Except.error (AppError.Config "Config lock poisoned"), ⟨[], [], []⟩)
        | some config =>
          let include_conversation := config.output.include_conversation
          let total := doc_configs.length + if include_conversation then 2 else 1
          let system_prompt := strReplace DOCGEN_SYSTEM_PROMPT "{current_date}" env.today
          let loop :=
            genDocsLoop env config conversation system_prompt session_id total
              doc_configs 0 []
          match loop.1 with
          | Except.error e => (Except.error e, ⟨loop.2.1, [], loop.2.2⟩)
          | Except.ok drafts0 =>
            let drafts1 :=
              if include_conversation then
                drafts0 ++
                  [("CONVERSATION.md",
                    generate_conversation_md env.searchQueryOf session messages)]
              else drafts0
            let conv_events :=
              if include_conversation then
                [GenEvent.progress (total - 1) total "CONVERSATION.md" session_id]
              else []
            let quality := analyze_plan_readiness messages
            let drafts :=
              drafts1 ++
                [("MODEL_HANDOFF.md",
                  generate_model_handoff_doc session target quality)]
            let handoff_event :=
              GenEvent.progress total total "MODEL_HANDOFF.md" session_id
            let store := env.replaceDocuments session_id drafts
            let complete_events :=
              match store with
              | Except.error _ => []
              | Except.ok documents =>
                [GenEvent.complete session_id documents.length]
            (store,
             ⟨loop.2.1, [(session_id, drafts)],
              loop.2.2 ++ conv_events ++ [handoff_event] ++ complete_events⟩)

/-! ## Streaming client (`src-tauri/src/llm/mod.rs`, `stream_chat` /
`stream_chat_openai`)

The network layer is modelled at the byte level: a stream is the list of
byte chunks the successive reads deliver (a timeout or transport failure
aborts a real run before this logic matters and is outside these claims).
Cancellation is the sequence of values successive `AtomicBool` loads
observe, and `serde_json` line deserialization is an abstract parser
parameter. -/

/-- Continuation byte test `0x80..=0xBF`. -/
def isCont (b : Nat) : Bool := 0x80 ≤ b ∧ b ≤ 0xBF

/-- Allowed second byte after a three-byte lead (WHATWG / Rust `std`
constrained ranges excluding overlong encodings and surrogates). -/
def cont2ok3 (b b2 : Nat) : Bool :=
  if b = 0xE0 then 0xA0 ≤ b2 ∧ b2 ≤ 0xBF
  else if b = 0xED then 0x80 ≤ b2 ∧ b2 ≤ 0x9F
  else isCont b2

/-- Allowed second byte after a four-byte lead. -/
def cont2ok4 (b b2 : Nat) : Bool :=
  if b = 0xF0 then 0x90 ≤ b2 ∧ b2 ≤ 0xBF
  else if b = 0xF4 then 0x80 ≤ b2 ∧ b2 ≤ 0x8F
  else isCont b2

/-- U+FFFD REPLACEMENT CHARACTER. -/
def fffd : Char := Char.ofNat 0xFFFD

/-- Fuel-driven UTF-8 lossy decoding: each step consumes at least one byte,
so a fuel of the input length suffices. -/
def utf8LossyAux : Nat → List Nat → List Char
  | 0, _ => []
  | _, [] => []
  | Nat.succ fuel, b :: rest =>
    if b ≤ 0x7F then Char.ofNat b :: utf8LossyAux fuel rest
    else if 0xC2 ≤ b ∧ b ≤ 0xDF then
      match rest with
      | [] => [fffd]
      | b2 :: rest2 =>
        if isCont b2 then
          Char.ofNat ((b - 0xC0) * 64 + (b2 - 0x80)) :: utf8LossyAux fuel rest2
        else fffd :: utf8LossyAux fuel rest
    else if 0xE0 ≤ b ∧ b ≤ 0xEF then
      match rest with
      | [] => [fffd]
      | b2 :: rest2 =>
        if cont2ok3 b b2 then
          match rest2 with
          | [] => [fffd]
          | b3 :: rest3 =>
            if isCont b3 then
              Char.ofNat (((b - 0xE0) * 64 + (b2 - 0x80)) * 64 + (b3 - 0x80)) ::
                utf8LossyAux fuel rest3
            else fffd :: utf8LossyAux fuel rest2
        else fffd :: utf8LossyAux fuel rest
    else if 0xF0 ≤ b ∧ b ≤ 0xF4 then
      match rest with
      | [] => [fffd]
      | b2 :: rest2 =>
        if cont2ok4 b b2 then
          match rest2 with
          | [] => [fffd]
          | b3 :: rest3 =>
            if isCont b3 then
              match rest3 with
              | [] => [fffd]
              | b4 :: rest4 =>
                if isCont b4 then
                  Char.ofNat
                    ((((b - 0xF0) * 64 + (b2 - 0x80)) * 64 + (b3 - 0x80)) * 64 +
                      (b4 - 0x80)) :: utf8LossyAux fuel rest4
                else fffd :: utf8LossyAux fuel rest3
            else fffd :: utf8LossyAux fuel rest2
        else fffd :: utf8LossyAux fuel rest
    else fffd :: utf8LossyAux fuel rest

/-- `String::from_utf8_lossy`: decode UTF-8, replacing each maximal invalid
subpart (including a truncated sequence at the end of the input) with one
U+FFFD, per the WHATWG policy Rust implements. -/
def utf8Lossy (bytes : List Nat) : List Char :=
  utf8LossyAux bytes.length bytes

/-- `buffer.find('\n')` plus the two slices: the text before the first
newline and the text after it, or `none` when the buffer holds no complete
line. -/
def splitAtNewline (l : List Char) : Option (List Char × List Char) :=
  match l.span fun c => c ≠ '\n' with
  | (_, []) => none
  | (before, _ :: after) => some (before, after)

/-- `llm/mod.rs` `OllamaStreamMessage`. -/
structure OllamaStreamMessage where
  content : String
deriving DecidableEq, Repr

/-- `llm/mod.rs` `OllamaStreamResponse`. -/
structure OllamaStreamResponse where
  message : OllamaStreamMessage
  done : Bool
deriving DecidableEq, Repr

/-- The events `stream_chat` emits (`stream:chunk` with `type = "content"`
and `stream:done`); search events never arise in these loops. -/
inductive StreamEv where
  | content (s : String)
  | done
deriving DecidableEq, Repr

/-- Outcome of a modelled streaming call: the Rust return value, the emitted
events, and the sequence of cancellation-flag loads performed. -/
structure StreamRunOut where
  result : Except AppError String
  events : List StreamEv
  checks : List Bool
deriving DecidableEq, Repr

/-- Inner `while let Some(newline_pos) = buffer.find('\n')` loop of the
Ollama branch: drain complete lines, skip empty and unparsable ones, emit
content events, and stop at the first `done: true` line (leaving the rest
of the buffer untouched). Returns (remaining buffer, appended response
text, events, done). Fuel is the buffer length, which bounds the number of
lines. -/
def drainOllama (parse : String → Option OllamaStreamResponse) :
    Nat → List Char → List Char × String × List StreamEv × Bool
  | 0, buf => (buf, "", [], false)
  | Nat.succ fuel, buf =>
    match splitAtNewline buf with
    | none => (buf, "", [], false)
    | some (before, after) =>
      let line := strTrim (String.mk before)
      if line = "" then drainOllama parse fuel after
      else
        match parse line with
        | none => drainOllama parse fuel after
        | some parsed =>
          let evs :=
            if parsed.message.content = "" then []
            else [StreamEv.content parsed.message.content]
          if parsed.done then (after, parsed.message.content, evs ++ [StreamEv.done], true)
          else
            let out := drainOllama parse fuel after
            (out.1, parsed.message.content ++ out.2.1, evs ++ out.2.2.1, out.2.2.2)

/-- `stream_chat` lines 656–684: parse whatever trailing data remains in the
buffer once the reads are exhausted. Returns (appended response text,
events, whether a `done: true` remainder was seen). -/
def ollamaRemainder (parse : String → Option OllamaStreamResponse)
    (buf : List Char) : String × List StreamEv × Bool :=
  let remaining := strTrim (String.mk buf)
  if remaining = "" then ("", [], false)
  else
    match parse remaining with
    | none => ("", [], false)
    | some parsed =>
      let evs :=
        if parsed.message.content = "" then []
        else [StreamEv.content parsed.message.content]
      if parsed.done then (parsed.message.content, evs ++ [StreamEv.done], true)
      else (parsed.message.content, evs, false)

/-- `stream_chat` epilogue (lines 656–703): remainder handling, then either
`Ok(full_response)` or — when no `done` line ever arrived — the final
cancellation check and `StreamCancelled` / `StreamInterrupted`. `n` is the
index of the next cancellation-flag load. -/
def ollamaFinish (parse : String → Option OllamaStreamResponse)
    (cancel : Option (Nat → Bool)) (n : Nat) (buf : List Char) (done : Bool) :
    StreamRunOut :=
  let rem := ollamaRemainder parse buf
  if done || rem.2.2 then
    { result := Except.ok rem.1, events := rem.2.1, checks := [] }
  else
    match cancel with
    | some flag =>
      if flag n then
        { result := Except.error AppError.StreamCancelled,
          events := rem.2.1 ++ [StreamEv.done], checks := [true] }
      else
        { result := Except.error AppError.StreamInterrupted,
          events := rem.2.1, checks := [false] }
    | none =>
      { result := Except.error AppError.StreamInterrupted,
        events := rem.2.1, checks := [] }

/-- `stream_chat` main read loop (lines 589–654) over the Ollama backend:
each delivered chunk is preceded by a cancellation check, lossily decoded,
appended to the line buffer and drained; the loop breaks once a line says
`done`. The `Ok` payload of `result` is the `full_response` accumulated
from this point on. -/
def ollamaLoop (parse : String → Option OllamaStreamResponse)
    (cancel : Option (Nat → Bool)) :
    List (List Nat) → Nat → List Char → StreamRunOut
  | [], n, buf => ollamaFinish parse cancel n buf false
  | chunk :: rest, n, buf =>
    let checked : Option Bool := cancel.map fun flag => flag n
    if checked = some true then
      { result := Except.error AppError.StreamCancelled,
        events := [StreamEv.done], checks := [true] }
    else
      let buf2 := buf ++ utf8Lossy chunk
      let d := drainOllama parse buf2.length buf2
      let out :=
        if d.2.2.2 then ollamaFinish parse cancel (n + 1) d.1 true
        else ollamaLoop parse cancel rest (n + 1) d.1
      { result := out.result.map fun t => d.2.1 ++ t,
        events := d.2.2.1 ++ out.events,
        checks := checked.toList ++ out.checks }

/-- `llm/mod.rs` `OpenAiStreamDelta`. -/
structure OpenAiStreamDelta where
  content : Option String
deriving DecidableEq, Repr

/-- `llm/mod.rs` `OpenAiStreamChoice`. -/
structure OpenAiStreamChoice where
  delta : OpenAiStreamDelta
  finish_reason : Option String
deriving DecidableEq, Repr

/-- `llm/mod.rs` `OpenAiStreamResponse`. -/
structure OpenAiStreamResponse where
  choices : List OpenAiStreamChoice
deriving DecidableEq, Repr

/-- `str::trim_start_matches(pat)`: strip every leading repetition of `pat`.
Fuel is the string length. -/
def stripPrefixRepeatedAux (pat : List Char) : Nat → List Char → List Char
  | 0, l => l
  | Nat.succ fuel, l =>
    if pat ≠ [] ∧ pat.isPrefixOf l then
      stripPrefixRepeatedAux pat fuel (l.drop pat.length)
    else l

/-- `line.trim_start_matches("data:")` as used by the SSE branch. -/
def stripPrefixRepeated (pat s : String) : String :=
  String.mk (stripPrefixRepeatedAux pat.toList s.toList.length s.toList)

/-- `for choice in parsed.choices` (lines 861–888): append delta content,
emit a content event per non-empty delta, and break with a `done` event at
the first choice carrying a `finish_reason`. -/
def processChoices : List OpenAiStreamChoice → String × List StreamEv × Bool
  | [] => ("", [], false)
  | ch :: rest =>
    let c1 :=
      match ch.delta.content with
      | some s => if s = "" then ("", []) else (s, [StreamEv.content s])
      | none => ("", [])
    if ch.finish_reason.isSome then (c1.1, c1.2 ++ [StreamEv.done], true)
    else
      let out := processChoices rest
      (c1.1 ++ out.1, c1.2 ++ out.2.1, out.2.2)

/-- Inner line loop of `stream_chat_openai` (lines 834–892): SSE framing —
empty and `:`-prefixed lines are keepalives, non-`data:` lines are ignored,
`[DONE]` terminates the line loop, and a parsed payload runs
`processChoices`; a `finish_reason` sets `done` without stopping the line
loop (only the chunk loop checks `done`). -/
def drainOpenAi (parse : String → Option OpenAiStreamResponse) :
    Nat → List Char → List Char × String × List StreamEv × Bool
  | 0, buf => (buf, "", [], false)
  | Nat.succ fuel, buf =>
    match splitAtNewline buf with
    | none => (buf, "", [], false)
    | some (before, after) =>
      let line := strTrim (String.mk before)
      if line = "" ∨ strStartsWith line ":" then drainOpenAi parse fuel after
      else if ¬ strStartsWith line "data:" then drainOpenAi parse fuel after
      else
        let data := strTrim (stripPrefixRepeated "data:" line)
        if data = "[DONE]" then (after, "", [StreamEv.done], true)
        else
          match parse data with
          | none => drainOpenAi parse fuel after
          | some parsed =>
            let step := processChoices parsed.choices
            let out := drainOpenAi parse fuel after
            (out.1, step.1 ++ out.2.1, step.2.1 ++ out.2.2.1,
             step.2.2 || out.2.2.2)

/-- `stream_chat_openai` read loop and epilogue (lines 813–916): per-read
cancellation check, lossy decode, SSE line drain; on `done` the call
returns `Ok(full_response)`, on stream end without `done` the final
cancellation check decides `StreamCancelled` (with its terminal `done`
event) versus `StreamInterrupted`. -/
def openAiLoop (parse : String → Option OpenAiStreamResponse)
    (cancel : Option (Nat → Bool)) :
    List (List Nat) → Nat → List Char → StreamRunOut
  | [], n, _ =>
    match cancel with
    | some flag =>
      if flag n then
        { result := Except.error AppError.StreamCancelled,
          events := [StreamEv.done], checks := [true] }
      else
        { result := Except.error AppError.StreamInterrupted,
          events := [], checks := [false] }
    | none =>
      { result := Except.error AppError.StreamInterrupted,
        events := [], checks := [] }
  | chunk :: rest, n, buf =>
    let checked : Option Bool := cancel.map fun flag => flag n
    if checked = some true then
      { result := Except.error AppError.StreamCancelled,
        events := [StreamEv.done], checks := [true] }
    else
      let buf2 := buf ++ utf8Lossy chunk
      let d := drainOpenAi parse buf2.length buf2
      if d.2.2.2 then
        { result := Except.ok d.2.1, events := d.2.2.1,
          checks := checked.toList }
      else
        let out := openAiLoop parse cancel rest (n + 1) d.1
        { result := out.result.map fun t => d.2.1 ++ t,
          events := d.2.2.1 ++ out.events,
          checks := checked.toList ++ out.checks }

/-! ## Concrete material for the chunk-splitting analysis -/

/-- Models `serde_json::from_str::<OllamaStreamResponse>` on the restricted
line shape `{"message":{"content":"…"},"done":true|false}` with no escape
sequences in the content — exactly the shapes exercised by the concrete
byte streams below. -/
def parseOllamaLineSimple (s : String) : Option OllamaStreamResponse :=
  let p1 := "\x7b\"message\":\x7b\"content\":\""
  if strStartsWith s p1 then
    let tail := s.toList.drop p1.length
    let sp := tail.span fun c => c ≠ '\"'
    if sp.2 = "\"\x7d,\"done\":true\x7d".toList then
      some ⟨⟨String.mk sp.1⟩, true⟩
    else if sp.2 = "\"\x7d,\"done\":false\x7d".toList then
      some ⟨⟨String.mk sp.1⟩, false⟩
    else none
  else none

/-- ASCII byte encoding of a pure-ASCII string. -/
def asciiBytes (s : String) : List Nat :=
  s.toList.map Char.toNat

/-- The bytes of the NDJSON line
`{"message":{"content":"é"},"done":true}` followed by a newline; `é` is the
two UTF-8 bytes `0xC3 0xA9`, the rest is ASCII. -/
def eDocLineBytes : List Nat :=
  asciiBytes "\x7b\"message\":\x7b\"content\":\"" ++ [0xC3, 0xA9] ++
    asciiBytes "\"\x7d,\"done\":true\x7d\n"

/-- The stream delivered in a single read. -/
def eDocChunksWhole : List (List Nat) := [eDocLineBytes]

/-- The same byte stream split into two reads between the two UTF-8 bytes
of `é`. -/
def eDocChunksSplit : List (List Nat) :=
  [asciiBytes "\x7b\"message\":\x7b\"content\":\"" ++ [0xC3],
   [0xA9] ++ asciiBytes "\"\x7d,\"done\":true\x7d\n"]

/-! ## Specification-side helper definitions and concrete inputs -/

/-- The non-system transcript the analyzers work on. -/
def nonSystemMessages (messages : List Message) : List Message :=
  messages.filter fun m => m.role ≠ "system"

/-- A message matches a topic when some keyword occurs in its lowercased
content. -/
def messageMatchesTopic (keywords : List String) (m : Message) : Bool :=
  keywords.any fun kw => containsSubstr (asciiLower m.content) kw

/-- The distinct keywords of a topic that occur somewhere in the corpus. -/
def topicMatchedKeywords (keywords : List String) (messages : List Message) :
    List String :=
  keywords.filter fun kw =>
    messages.any fun m => containsSubstr (asciiLower m.content) kw

/-- The messages of the corpus matching a topic, in transcript order. -/
def topicMatchingMessages (keywords : List String) (messages : List Message) :
    List Message :=
  messages.filter fun m => messageMatchesTopic keywords m

/-- Terminal-event discriminator. -/
def isDoneEv : StreamEv → Bool
  | StreamEv.done => true
  | StreamEv.content _ => false

/-- A one-user-message transcript for concrete runs. -/
def sampleUserMessage : Message :=
  ⟨"m1", "s1", "user", "Build a habit tracker using SQLite and Tauri", none,
   "2026-02-07 00:00:00"⟩

/-- A concrete session record. -/
def sampleSession : Session :=
  ⟨"s1", "Habit Tracker", none, "active", "2026-02-07 00:00:00",
   "2026-02-07 01:00:00"⟩

/-- The default `AppConfig` (`types.rs` `impl Default for AppConfig`). -/
def sampleConfig : AppConfig :=
  { llm := ⟨"ollama", "qwen3-coder", "http://localhost:11434", none, mkRat 7 10,
      65536⟩,
    search := ⟨true, "duckduckgo", "", "", true⟩,
    ui := ⟨"dark"⟩,
    output := ⟨true, "~/Projects", "generic", "fail_on_critical"⟩ }

/-- Environment whose provider fails every generation call. -/
def failingProviderEnv : DocgenEnv :=
  { getMessages := Except.ok [sampleUserMessage],
    getSession := Except.ok sampleSession,
    config := some sampleConfig,
    today := "2026-02-07",
    searchQueryOf := fun _ => none,
    gen := fun _ _ _ => Except.error (AppError.LlmRequest "model missing"),
    replaceDocuments := fun _ _ => Except.ok [] }

/-- Environment whose transcript has no user-authored message. -/
def noUserEnv : DocgenEnv :=
  { failingProviderEnv with
    getMessages :=
      Except.ok [⟨"m1", "s1", "assistant", "Tell me more", none,
                  "2026-02-07 00:00:00"⟩] }

/-- Environment whose provider returns a heading-less draft at temperature
0.4 and another heading-less draft at the 0.3 retry. -/
def headinglessProviderEnv : DocgenEnv :=
  { failingProviderEnv with
    gen := fun _ _ temperature =>
      if temperature = mkRat 4 10 then Except.ok "no heading here"
      else Except.ok "retry also without heading" }

/-! ## Lemmas on the topic-evaluation loop -/

theorem insertKw_mem {acc : List String} {kw x : String} :
    x ∈ insertKw acc kw ↔ x ∈ acc ∨ x = kw := by
  unfold insertKw
  split
  · rename_i h
    constructor
    · exact fun hx => Or.inl hx
    · rintro (hx | rfl)
      · exact hx
      · exact h
  · simp [List.mem_append]

theorem insertKw_nodup {acc : List String} {kw : String} (h : acc.Nodup) :
    (insertKw acc kw).Nodup := by
  unfold insertKw
  split
  · exact h
  · rename_i hk
    refine List.Nodup.append h (List.nodup_singleton kw) ?_
    intro a ha hb
    rw [List.mem_singleton] at hb
    subst hb
    exact hk ha

theorem matchKeywordsAux_flag (content : String) :
    ∀ (kws matched : List String) (flag : Bool),
      (matchKeywordsAux content matched flag kws).2
        = (flag || kws.any fun kw => containsSubstr content kw)
  | [], matched, flag => by simp [matchKeywordsAux]
  | kw :: rest, matched, flag => by
    by_cases h : containsSubstr content kw
    · simp [matchKeywordsAux, h, matchKeywordsAux_flag content rest]
    · simp [matchKeywordsAux, h, matchKeywordsAux_flag content rest]

theorem matchKeywordsAux_mem (content : String) :
    ∀ (kws matched : List String) (flag : Bool) (x : String),
      x ∈ (matchKeywordsAux content matched flag kws).1
        ↔ x ∈ matched ∨ (x ∈ kws ∧ containsSubstr content x = true)
  | [], matched, flag, x => by simp [matchKeywordsAux]
  | kw :: rest, matched, flag, x => by
    by_cases h : containsSubstr content kw
    · simp only [matchKeywordsAux, h, if_pos,
        matchKeywordsAux_mem content rest, insertKw_mem, List.mem_cons]
      constructor
      · rintro ((hx | rfl) | ⟨hx, hc⟩)
        · exact Or.inl hx
        · exact Or.inr ⟨Or.inl rfl, h⟩
        · exact Or.inr ⟨Or.inr hx, hc⟩
      · rintro (hx | ⟨(rfl | hx), hc⟩)
        · exact Or.inl (Or.inl hx)
        · exact Or.inl (Or.inr rfl)
        · exact Or.inr ⟨hx, hc⟩
    · simp only [matchKeywordsAux, h, if_neg, Bool.not_eq_true,
        matchKeywordsAux_mem content rest, List.mem_cons]
      constructor
      · rintro (hx | ⟨hx, hc⟩)
        · exact Or.inl hx
        · exact Or.inr ⟨Or.inr hx, hc⟩
      · rintro (hx | ⟨(rfl | hx), hc⟩)
        · exact Or.inl hx
        · exact absurd hc (by simpa using h)
        · exact Or.inr ⟨hx, hc⟩

theorem matchKeywordsAux_nodup (content : String) :
    ∀ (kws matched : List String) (flag : Bool), matched.Nodup →
      (matchKeywordsAux content matched flag kws).1.Nodup
  | [], matched, flag, h => h
  | kw :: rest, matched, flag, h => by
    by_cases hc : containsSubstr content kw
    · simpa [matchKeywordsAux, hc] using
        matchKeywordsAux_nodup content rest (insertKw matched kw) true
          (insertKw_nodup h)
    · simpa [matchKeywordsAux, hc] using
        matchKeywordsAux_nodup content rest matched flag h

theorem evalTopicMessages_ids (kws : List String) :
    ∀ (msgs : List Message) (ids matched : List String),
      (evalTopicMessages kws msgs ids matched).1
        = ids ++ (((topicMatchingMessages kws msgs).map fun m => m.id).take
            (4 - ids.length))
  | [], ids, matched => by
    simp [evalTopicMessages, topicMatchingMessages]
  | m :: rest, ids, matched => by
    have hflag : (matchKeywordsAux (asciiLower m.content) matched false kws).2
        = messageMatchesTopic kws m := by
      rw [matchKeywordsAux_flag]
      simp [messageMatchesTopic]
    simp only [evalTopicMessages, hflag, topicMatchingMessages, List.filter_cons]
    by_cases hm : messageMatchesTopic kws m
    · by_cases hlen : ids.length < 4
      · simp only [hm, hlen, decide_True, Bool.and_self, if_pos,
          evalTopicMessages_ids kws rest, List.map_cons]
        have h4 : 4 - ids.length = (3 - ids.length) + 1 := by omega
        have h5 : 4 - (ids ++ [m.id]).length = 3 - ids.length := by
          simp only [List.length_append, List.length_singleton]
          omega
        rw [h4, h5, List.take_succ_cons, List.append_assoc]
        rfl
      · simp only [hm, hlen, decide_False, Bool.and_false, Bool.false_eq_true,
          if_false, if_pos, evalTopicMessages_ids kws rest, List.map_cons]
        have h4 : 4 - ids.length = 0 := by omega
        simp [h4]
    · simp only [hm, Bool.false_and, Bool.false_eq_true, if_false,
        evalTopicMessages_ids kws rest]
      rfl

theorem evalTopicMessages_matched_mem (kws : List String) :
    ∀ (msgs : List Message) (ids matched : List String) (x : String),
      x ∈ (evalTopicMessages kws msgs ids matched).2
        ↔ x ∈ matched ∨ (x ∈ kws ∧
            ∃ m ∈ msgs, containsSubstr (asciiLower m.content) x = true)
  | [], ids, matched, x => by simp [evalTopicMessages]
  | m :: rest, ids, matched, x => by
    simp only [evalTopicMessages, evalTopicMessages_matched_mem kws rest,
      matchKeywordsAux_mem, List.mem_cons]
    constructor
    · rintro ((hx | ⟨hk, hc⟩) | ⟨hk, m2, hm2, hc⟩)
      · exact Or.inl hx
      · exact Or.inr ⟨hk, m, Or.inl rfl, hc⟩
      · exact Or.inr ⟨hk, m2, Or.inr hm2, hc⟩
    · rintro (hx | ⟨hk, m2, (rfl | hm2), hc⟩)
      · exact Or.inl (Or.inl hx)
      · exact Or.inl (Or.inr ⟨hk, hc⟩)
      · exact Or.inr ⟨hk, m2, hm2, hc⟩

theorem evalTopicMessages_matched_nodup (kws : List String) :
    ∀ (msgs : List Message) (ids matched : List String), matched.Nodup →
      (evalTopicMessages kws msgs ids matched).2.Nodup
  | [], _, _, h => h
  | m :: rest, _, matched, h =>
    evalTopicMessages_matched_nodup kws rest _ _
      (matchKeywordsAux_nodup (asciiLower m.content) kws matched false h)

theorem evalTopicMessages_matched_length (kws : List String)
    (msgs : List Message) (hk : kws.Nodup) :
    (evalTopicMessages kws msgs [] []).2.length
      = (topicMatchedKeywords kws msgs).length := by
  apply List.Perm.length_eq
  unfold topicMatchedKeywords
  rw [List.perm_ext_iff_of_nodup
    (evalTopicMessages_matched_nodup kws msgs [] [] List.nodup_nil)
    (List.Nodup.filter _ hk)]
  intro x
  rw [evalTopicMessages_matched_mem]
  simp [topicMatchedKeywords, List.mem_filter, List.any_eq_true]

theorem evaluate_topics_length (topics : List (String × List String))
    (msgs : List Message) :
    (evaluate_topics topics msgs).length = topics.length := by
  simp [evaluate_topics]

theorem coverage_must_have_length (messages : List Message) :
    (analyze_planning_coverage messages).must_have.length
      = MUST_HAVE_TOPICS.length := by
  simp [analyze_planning_coverage, evaluate_topics_length]

theorem coverage_should_have_length (messages : List Message) :
    (analyze_planning_coverage messages).should_have.length
      = SHOULD_HAVE_TOPICS.length := by
  simp [analyze_planning_coverage, evaluate_topics_length]

theorem evaluate_topics_get (topics : List (String × List String))
    (msgs : List Message) (i : Nat) (h : i < topics.length)
    (h2 : i < (evaluate_topics topics msgs).length) :
    (evaluate_topics topics msgs).get ⟨i, h2⟩
      = (fun t : String × List String =>
          let r := evalTopicMessages t.2 msgs [] []
          let status :=
            if r.2.isEmpty then CoverageStatus.Missing
            else if 2 ≤ r.2.length ∧ 2 ≤ r.1.length then CoverageStatus.Covered
            else CoverageStatus.Partial
          CoverageTopic.mk t.1 status r.1) (topics.get ⟨i, h⟩) := by
  simp [evaluate_topics]

theorem topicEvidence_take_four (kws : List String) (C : List Message) :
    (evalTopicMessages kws C [] []).1
      = ((topicMatchingMessages kws C).map fun m => m.id).take 4 := by
  simpa using evalTopicMessages_ids kws C [] []

theorem topicEvidence_length (kws : List String) (C : List Message) :
    (evalTopicMessages kws C [] []).1.length
      = min 4 (topicMatchingMessages kws C).length := by
  rw [topicEvidence_take_four]
  simp [List.length_take]

/-- The status computed by `evaluate_topics` for a duplicate-free keyword
list, characterized by the number of distinct matched keywords and the
number of matching messages. -/
theorem topicStatus_characterization (kws : List String) (C : List Message)
    (hk : kws.Nodup) :
    (((evalTopicMessages kws C [] []).2.isEmpty = true)
        ↔ (topicMatchedKeywords kws C).length = 0)
    ∧ ((2 ≤ (evalTopicMessages kws C [] []).2.length
          ∧ 2 ≤ (evalTopicMessages kws C [] []).1.length)
        ↔ (2 ≤ (topicMatchedKeywords kws C).length
          ∧ 2 ≤ (topicMatchingMessages kws C).length)) := by
  rw [List.isEmpty_iff_length_eq_zero, evalTopicMessages_matched_length kws C hk,
    topicEvidence_length]
  constructor
  · exact Iff.rfl
  · constructor
    · rintro ⟨h1, h2⟩
      exact ⟨h1, by omega⟩
    · rintro ⟨h1, h2⟩
      exact ⟨h1, by omega⟩

theorem topics_keywords_nodup :
    ∀ tk ∈ MUST_HAVE_TOPICS ++ SHOULD_HAVE_TOPICS, tk.2.Nodup := by
  decide

/-- C4: for every transcript the readiness score equals
`100 − 14×|missing must-haves| − 6×|missing should-haves|` clamped to
`[0, 100]`, and the empty transcript — all five must-haves and all five
should-haves missing — scores exactly 0. -/
theorem readiness_score_formula :
    (∀ messages : List Message,
        ((analyze_plan_readiness messages).score : Int)
          = max 0 (min 100
              (100
                - 14 * (((analyze_planning_coverage messages).must_have.filter
                    fun t => t.status = CoverageStatus.Missing).length : Int)
                - 6 * (((analyze_planning_coverage messages).should_have.filter
                    fun t => t.status = CoverageStatus.Missing).length : Int))))
    ∧ (analyze_plan_readiness []).score = 0 := by
  constructor
  · intro messages
    simp only [analyze_plan_readiness, List.length_map]
    rw [Int.toNat_of_nonneg (le_max_left 0 _)]
    omega
  · decide

/-- C10: every topic of the coverage report records as evidence the ids of
the first matching messages of the (system-filtered) transcript, truncated
to at most 4 entries, even when more messages match. -/
theorem evidence_trail_first_four (messages : List Message) :
    ∀ t ∈ (analyze_planning_coverage messages).must_have
        ++ (analyze_planning_coverage messages).should_have,
      t.evidence_message_ids.length ≤ 4
      ∧ ∃ tk ∈ MUST_HAVE_TOPICS ++ SHOULD_HAVE_TOPICS,
          t.topic = tk.1
          ∧ t.evidence_message_ids
            = ((topicMatchingMessages tk.2 (nonSystemMessages messages)).map
                fun m => m.id).take 4 := by
  intro t ht
  simp only [analyze_planning_coverage, evaluate_topics, List.mem_append,
    List.mem_map] at ht
  have hmain : ∃ tk ∈ MUST_HAVE_TOPICS ++ SHOULD_HAVE_TOPICS,
      t.topic = tk.1
      ∧ t.evidence_message_ids = (evalTopicMessages tk.2
          (messages.filter fun m => m.role ≠ "system") [] []).1 := by
    rcases ht with ⟨tk, htk, rfl⟩ | ⟨tk, htk, rfl⟩
    · exact ⟨tk, List.mem_append_left _ htk, rfl, rfl⟩
    · exact ⟨tk, List.mem_append_right _ htk, rfl, rfl⟩
  rcases hmain with ⟨tk, htk, hname, hev⟩
  have hC : (messages.filter fun m => m.role ≠ "system")
      = nonSystemMessages messages := rfl
  rw [hC] at hev
  rw [hev, topicEvidence_take_four]
  refine ⟨?_, tk, htk, hname, rfl⟩
  simp [List.length_take]

/-- C10 witness: on the empty transcript the first must-have topic is in the
report, its evidence trail is empty (hence at most 4 entries) and matches
the first-four characterization. -/
theorem evidence_trail_first_four_witness :
    (⟨"Problem statement / why this exists", CoverageStatus.Missing, []⟩ :
        CoverageTopic).evidence_message_ids.length ≤ 4
    ∧ ∃ tk ∈ MUST_HAVE_TOPICS ++ SHOULD_HAVE_TOPICS,
        (⟨"Problem statement / why this exists", CoverageStatus.Missing, []⟩ :
            CoverageTopic).topic = tk.1
        ∧ (⟨"Problem statement / why this exists", CoverageStatus.Missing, []⟩ :
            CoverageTopic).evidence_message_ids
          = ((topicMatchingMessages tk.2 (nonSystemMessages [])).map
              fun m => m.id).take 4 :=
  evidence_trail_first_four [] _ (by decide)

/-- C5 (amended): a topic is missing exactly when no keyword occurs in the
corpus; covered exactly when at least 2 distinct keywords match and at
least 2 distinct messages match some keyword; partial exactly when at
least one keyword matches but the covered condition fails (in particular a
single message matching many keywords is partial, never covered). -/
theorem coverage_status_characterization (messages : List Message) :
    ∀ t ∈ (analyze_planning_coverage messages).must_have
        ++ (analyze_planning_coverage messages).should_have,
      ∃ tk ∈ MUST_HAVE_TOPICS ++ SHOULD_HAVE_TOPICS,
        t.topic = tk.1
        ∧ (t.status = CoverageStatus.Missing
            ↔ (topicMatchedKeywords tk.2 (nonSystemMessages messages)).length = 0)
        ∧ (t.status = CoverageStatus.Covered
            ↔ 2 ≤ (topicMatchedKeywords tk.2 (nonSystemMessages messages)).length
              ∧ 2 ≤ (topicMatchingMessages tk.2 (nonSystemMessages messages)).length)
        ∧ (t.status = CoverageStatus.Partial
            ↔ 1 ≤ (topicMatchedKeywords tk.2 (nonSystemMessages messages)).length
              ∧ ¬(2 ≤ (topicMatchedKeywords tk.2 (nonSystemMessages messages)).length
                  ∧ 2 ≤ (topicMatchingMessages tk.2
                      (nonSystemMessages messages)).length)) := by
  intro t ht
  simp only [analyze_planning_coverage, evaluate_topics, List.mem_append,
    List.mem_map] at ht
  have hmain : ∃ tk ∈ MUST_HAVE_TOPICS ++ SHOULD_HAVE_TOPICS,
      t.topic = tk.1
      ∧ t.status = (if (evalTopicMessages tk.2 (nonSystemMessages messages)
            [] []).2.isEmpty then CoverageStatus.Missing
          else if 2 ≤ (evalTopicMessages tk.2 (nonSystemMessages messages)
              [] []).2.length
            ∧ 2 ≤ (evalTopicMessages tk.2 (nonSystemMessages messages)
              [] []).1.length then CoverageStatus.Covered
          else CoverageStatus.Partial) := by
    rcases ht with ⟨tk, htk, rfl⟩ | ⟨tk, htk, rfl⟩
    · exact ⟨tk, List.mem_append_left _ htk, rfl, rfl⟩
    · exact ⟨tk, List.mem_append_right _ htk, rfl, rfl⟩
  rcases hmain with ⟨tk, htk, hname, hstatus⟩
  have hchar := topicStatus_characterization tk.2 (nonSystemMessages messages)
    (topics_keywords_nodup tk htk)
  refine ⟨tk, htk, hname, ?_⟩
  rw [hstatus]
  split_ifs with h1 h2
  · -- status `Missing`
    have hz := hchar.1.mp h1
    exact ⟨iff_of_true rfl hz,
      iff_of_false (by decide) (fun hc => absurd hc.1 (by omega)),
      iff_of_false (by decide) (fun hc => absurd hc.1 (by omega))⟩
  · -- status `Covered`
    have hcov := hchar.2.mp h2
    have hz : (topicMatchedKeywords tk.2 (nonSystemMessages messages)).length ≠ 0 :=
      fun h0 => h1 (hchar.1.mpr h0)
    exact ⟨iff_of_false (by decide) hz, iff_of_true rfl hcov,
      iff_of_false (by decide) (fun hc => hc.2 hcov)⟩
  · -- status `Partial`
    have hz : (topicMatchedKeywords tk.2 (nonSystemMessages messages)).length ≠ 0 :=
      fun h0 => h1 (hchar.1.mpr h0)
    have hncov : ¬(2 ≤ (topicMatchedKeywords tk.2
          (nonSystemMessages messages)).length
        ∧ 2 ≤ (topicMatchingMessages tk.2 (nonSystemMessages messages)).length) :=
      fun hc => h2 (hchar.2.mpr hc)
    exact ⟨iff_of_false (by decide) hz, iff_of_false (by decide) hncov,
      iff_of_true rfl ⟨by omega, hncov⟩⟩

/-- C5 witness: on a concrete one-message transcript the first must-have
topic is in the report and satisfies the three-way characterization. -/
theorem coverage_status_characterization_witness :
    ∃ tk ∈ MUST_HAVE_TOPICS ++ SHOULD_HAVE_TOPICS,
      (⟨"Problem statement / why this exists", CoverageStatus.Partial, ["m1"]⟩ :
          CoverageTopic).topic = tk.1
      ∧ ((⟨"Problem statement / why this exists", CoverageStatus.Partial,
            ["m1"]⟩ : CoverageTopic).status = CoverageStatus.Missing
          ↔ (topicMatchedKeywords tk.2 (nonSystemMessages
              [⟨"m1", "s1", "user", "problem goal", none, "t0"⟩])).length = 0)
      ∧ ((⟨"Problem statement / why this exists", CoverageStatus.Partial,
            ["m1"]⟩ : CoverageTopic).status = CoverageStatus.Covered
          ↔ 2 ≤ (topicMatchedKeywords tk.2 (nonSystemMessages
              [⟨"m1", "s1", "user", "problem goal", none, "t0"⟩])).length
            ∧ 2 ≤ (topicMatchingMessages tk.2 (nonSystemMessages
              [⟨"m1", "s1", "user", "problem goal", none, "t0"⟩])).length)
      ∧ ((⟨"Problem statement / why this exists", CoverageStatus.Partial,
            ["m1"]⟩ : CoverageTopic).status = CoverageStatus.Partial
          ↔ 1 ≤ (topicMatchedKeywords tk.2 (nonSystemMessages
              [⟨"m1", "s1", "user", "problem goal", none, "t0"⟩])).length
            ∧ ¬(2 ≤ (topicMatchedKeywords tk.2 (nonSystemMessages
                [⟨"m1", "s1", "user", "problem goal", none, "t0"⟩])).length
              ∧ 2 ≤ (topicMatchingMessages tk.2 (nonSystemMessages
                [⟨"m1", "s1", "user", "problem goal", none, "t0"⟩])).length)) :=
  coverage_status_characterization
    [⟨"m1", "s1", "user", "problem goal", none, "t0"⟩] _ (by decide)

/-- C5 counterexample: on the transcript `[user: "problem goal"]` the first
must-have topic has status `Partial` although two distinct keywords
(`problem`, `goal`) match — refuting the claim that partial holds exactly
when exactly one keyword matches. -/
theorem coverage_partial_two_keywords_counterexample :
    ((analyze_planning_coverage
        [⟨"m1", "s1", "user", "problem goal", none, "t0"⟩]).must_have.head?.map
      fun t => t.status) = some CoverageStatus.Partial
    ∧ (topicMatchedKeywords ["problem", "goal", "why", "build", "need",
        "pain point"] (nonSystemMessages
          [⟨"m1", "s1", "user", "problem goal", none, "t0"⟩])).length = 2 := by
  decide

/-- C1: whenever the confidence report carries a blocking gap its score is
strictly below 90 (the raw weighted points are capped at 89), and a
document set missing any required filename always has a blocking gap. -/
theorem confidence_gap_caps_score (docs : List GeneratedDocument)
    (readiness : Option QualityReport) :
    ((analyze_generation_confidence docs readiness).blocking_gaps ≠ [] →
      (analyze_generation_confidence docs readiness).score < 90)
    ∧ ∀ name ∈ REQUIRED_DOCS, (∀ d ∈ docs, d.filename ≠ name) →
        (analyze_generation_confidence docs readiness).blocking_gaps ≠ [] := by
  constructor
  · intro hgaps
    have hne : (blockingGapsOf docs).isEmpty = false := by
      have : (analyze_generation_confidence docs readiness).blocking_gaps
          = blockingGapsOf docs := rfl
      rw [this] at hgaps
      simpa [List.isEmpty_iff] using hgaps
    show (if ¬ (blockingGapsOf docs).isEmpty ∧ 89 < rawConfidenceScore docs readiness
        then 89 else rawConfidenceScore docs readiness) < 90
    split_ifs with h
    · omega
    · rw [hne] at h
      simp only [Bool.false_eq_true, not_false_iff, true_and, not_lt] at h
      omega
  · intro name hmem habsent
    have hcontain : docsContain docs name = false := by
      unfold docsContain
      rw [List.any_eq_false]
      intro d hd
      simpa using habsent d hd
    have hfilter : name ∈ REQUIRED_DOCS.filter fun n => ¬ docsContain docs n := by
      rw [List.mem_filter]
      exact ⟨hmem, by simp [hcontain]⟩
    have hgap : (requiredGaps docs) ≠ [] := by
      simp only [requiredGaps, ne_eq, List.map_eq_nil_iff]
      intro hnil
      rw [hnil] at hfilter
      exact List.not_mem_nil _ hfilter
    show blockingGapsOf docs ≠ []
    simp only [blockingGapsOf, ne_eq, List.append_eq_nil]
    intro ⟨h1, _⟩
    exact hgap h1

/-- C1 witness: with no documents at all, the report has a blocking gap and
its score is below 90. -/
theorem confidence_gap_caps_score_witness :
    (analyze_generation_confidence [] none).blocking_gaps ≠ []
    ∧ (analyze_generation_confidence [] none).score < 90 := by
  have h := confidence_gap_caps_score [] none
  have hg := h.2 "START_HERE.md" (by decide) (by intro d hd; cases hd)
  exact ⟨hg, h.1 hg⟩

/-! ## Lemmas on the orchestrator -/

theorem generateDoc_error_iff (env : DocgenEnv) (config : AppConfig)
    (system_prompt prompt : String) (e : AppError) :
    ((generateDoc env config system_prompt prompt).1 = Except.error e)
      ↔ ∃ c ∈ (generateDoc env config system_prompt prompt).2,
          c.response = Except.error e := by
  simp only [generateDoc]
  rcases hg : env.gen config.llm
      [{ role := "system", content := system_prompt },
       { role := "user", content := prompt }] (mkRat 4 10) with e0 | content
  · simp
  · dsimp only
    split_ifs with hsw
    · simp
    · rcases hr : env.gen config.llm
          [{ role := "system", content := system_prompt },
           { role := "user", content := prompt ++
             "\n\nIMPORTANT: Start with a # heading. Output only valid Markdown." }]
          (mkRat 3 10) with e2 | content2
      · simp
      · simp

theorem genDocsLoop_error_iff (env : DocgenEnv) (config : AppConfig)
    (conversation system_prompt session_id : String) (total : Nat) :
    ∀ (configs : List (String × String)) (i : Nat)
      (drafts : List (String × String)) (e : AppError),
      ((genDocsLoop env config conversation system_prompt session_id total
            configs i drafts).1 = Except.error e)
        ↔ ∃ c ∈ (genDocsLoop env config conversation system_prompt session_id
              total configs i drafts).2.1, c.response = Except.error e
  | [], i, drafts, e => by simp [genDocsLoop]
  | (filename, prompt_template) :: rest, i, drafts, e => by
    simp only [genDocsLoop]
    split
    · rename_i e0 heq
      dsimp only
      have hiff := generateDoc_error_iff env config system_prompt
        (strReplace
          (strReplace (strReplace prompt_template "{conversation_history}"
            conversation) "{current_date}" env.today)
          "{previously_generated_docs}"
          (if drafts.isEmpty then "No documents generated yet."
           else
             String.intercalate "\n\n---\n\n"
               (drafts.map fun d => "## " ++ d.1 ++ "\n\n" ++ d.2))) e
      rw [heq] at hiff
      simp only [Except.error.injEq] at hiff ⊢
      exact hiff
    · rename_i content heq
      dsimp only
      have hstep := generateDoc_error_iff env config system_prompt
        (strReplace
          (strReplace (strReplace prompt_template "{conversation_history}"
            conversation) "{current_date}" env.today)
          "{previously_generated_docs}"
          (if drafts.isEmpty then "No documents generated yet."
           else
             String.intercalate "\n\n---\n\n"
               (drafts.map fun d => "## " ++ d.1 ++ "\n\n" ++ d.2))) e
      rw [heq] at hstep
      have hrec := genDocsLoop_error_iff env config conversation system_prompt
        session_id total rest (i + 1) (drafts ++ [(filename, content)]) e
      constructor
      · intro h
        rcases hrec.mp h with ⟨c, hc, hres⟩
        exact ⟨c, List.mem_append_right _ hc, hres⟩
      · rintro ⟨c, hc, hres⟩
        rcases List.mem_append.mp hc with hc1 | hc2
        · exact absurd (hstep.mpr ⟨c, hc1, hres⟩) (by simp)
        · exact hrec.mpr ⟨c, hc2, hres⟩

/-- C2: if any provider call of an orchestrator run fails, the run returns
exactly that provider error and the store's replace-documents operation is
never invoked — no partial batch is persisted. -/
theorem generate_provider_error_aborts (env : DocgenEnv) (session_id : String)
    (target : ForgeTarget) (e : AppError) :
    (∃ c ∈ (generate_all_documents env session_id target).2.providerCalls,
        c.response = Except.error e) →
      (generate_all_documents env session_id target).1 = Except.error e
      ∧ (generate_all_documents env session_id target).2.storeCalls = [] := by
  intro hexists
  rcases hmsgs : env.getMessages with e0 | messages
  · have hrun : generate_all_documents env session_id target
        = (Except.error e0, ⟨[], [], []⟩) := by
      unfold generate_all_documents
      rw [hmsgs]
    rw [hrun] at hexists
    simp at hexists
  · by_cases huser : (messages.any fun m => m.role = "user") = true
    · rcases hsession : env.getSession with e1 | session
      · have hrun : generate_all_documents env session_id target
            = (Except.error e1, ⟨[], [], []⟩) := by
          unfold generate_all_documents
          rw [hmsgs]
          dsimp only
          rw [if_neg (fun hc => hc huser), hsession]
        rw [hrun] at hexists
        simp at hexists
      · rcases hconfig : env.config with _ | config
        · have hrun : generate_all_documents env session_id target
              = (Except.error (AppError.Config "Config lock poisoned"),
                 ⟨[], [], []⟩) := by
            unfold generate_all_documents
            rw [hmsgs]
            dsimp only
            rw [if_neg (fun hc => hc huser), hsession]
            dsimp only
            rw [hconfig]
          rw [hrun] at hexists
          simp at hexists
        · set L := genDocsLoop env config
            (format_conversation_for_prompt messages)
            (strReplace DOCGEN_SYSTEM_PROMPT "{current_date}" env.today)
            session_id
            (doc_configs.length
              + if config.output.include_conversation then 2 else 1)
            doc_configs 0 [] with hL
          have hiff := genDocsLoop_error_iff env config
            (format_conversation_for_prompt messages)
            (strReplace DOCGEN_SYSTEM_PROMPT "{current_date}" env.today)
            session_id
            (doc_configs.length
              + if config.output.include_conversation then 2 else 1)
            doc_configs 0 [] e
          rw [← hL] at hiff
          rcases hloop : L.1 with e2 | drafts0
          · have hrun : generate_all_documents env session_id target
                = (Except.error e2, ⟨L.2.1, [], L.2.2⟩) := by
              unfold generate_all_documents
              rw [hmsgs]
              dsimp only
              rw [if_neg (fun hc => hc huser), hsession]
              dsimp only
              rw [hconfig]
              dsimp only
              rw [← hL, hloop]
            rw [hrun] at hexists ⊢
            dsimp only at hexists ⊢
            have hmain := hiff.mpr hexists
            rw [hloop] at hmain
            simp only [Except.error.injEq] at hmain
            subst hmain
            exact ⟨rfl, rfl⟩
          · exfalso
            have hrun : (generate_all_documents env session_id
                target).2.providerCalls = L.2.1 := by
              unfold generate_all_documents
              rw [hmsgs]
              dsimp only
              rw [if_neg (fun hc => hc huser), hsession]
              dsimp only
              rw [hconfig]
              dsimp only
              rw [← hL, hloop]
            rw [hrun] at hexists
            have hmain := hiff.mpr hexists
            rw [hloop] at hmain
            exact absurd hmain (by simp)
    · have hrun : generate_all_documents env session_id target
          = (Except.error (AppError.Validation
              "Cannot generate documents from an empty conversation"),
             ⟨[], [], []⟩) := by
        unfold generate_all_documents
        rw [hmsgs]
        dsimp only
        rw [if_pos huser]
      rw [hrun] at hexists
      simp at hexists

/-- C2 witness: a run whose provider rejects every call returns that
provider error unchanged and performs no store call. -/
theorem generate_provider_error_aborts_witness :
    (generate_all_documents failingProviderEnv "s1" ForgeTarget.Generic).1
        = Except.error (AppError.LlmRequest "model missing")
    ∧ (generate_all_documents failingProviderEnv "s1"
        ForgeTarget.Generic).2.storeCalls = [] :=
  generate_provider_error_aborts failingProviderEnv "s1" ForgeTarget.Generic
    (AppError.LlmRequest "model missing") (by decide)

/-- C3: a transcript with no user-authored message makes the orchestrator
fail with the empty-conversation validation error, with zero provider calls
and zero store calls. -/
theorem generate_empty_conversation_rejected (env : DocgenEnv)
    (session_id : String) (target : ForgeTarget) (messages : List Message)
    (hmsgs : env.getMessages = Except.ok messages)
    (huser : (messages.any fun m => m.role = "user") = false) :
    (generate_all_documents env session_id target).1
        = Except.error (AppError.Validation
            "Cannot generate documents from an empty conversation")
    ∧ (generate_all_documents env session_id target).2.providerCalls = []
    ∧ (generate_all_documents env session_id target).2.storeCalls = [] := by
  have hrun : generate_all_documents env session_id target
      = (Except.error (AppError.Validation
          "Cannot generate documents from an empty conversation"),
         ⟨[], [], []⟩) := by
    unfold generate_all_documents
    rw [hmsgs]
    dsimp only
    rw [if_pos (by simp [huser])]
  rw [hrun]
  exact ⟨rfl, rfl, rfl⟩

/-- C3 witness: the assistant-only transcript is rejected with the
empty-conversation error and no provider or store calls. -/
theorem generate_empty_conversation_rejected_witness :
    (generate_all_documents noUserEnv "s1" ForgeTarget.Generic).1
        = Except.error (AppError.Validation
            "Cannot generate documents from an empty conversation")
    ∧ (generate_all_documents noUserEnv "s1"
        ForgeTarget.Generic).2.providerCalls = []
    ∧ (generate_all_documents noUserEnv "s1"
        ForgeTarget.Generic).2.storeCalls = [] :=
  generate_empty_conversation_rejected noUserEnv "s1" ForgeTarget.Generic
    [⟨"m1", "s1", "assistant", "Tell me more", none, "2026-02-07 00:00:00"⟩]
    (by decide) (by decide)

/-- C9: a draft that starts with a `#` heading (after `trim_start`) is
accepted with exactly one provider call; a draft that does not triggers
exactly one retry at temperature 0.3 whose user prompt is the original
prompt plus the amended heading instruction, and the retry output is
accepted unconditionally. -/
theorem generate_doc_retry_policy (env : DocgenEnv) (config : AppConfig)
    (system_prompt prompt content : String)
    (hfirst : env.gen config.llm
        [{ role := "system", content := system_prompt },
         { role := "user", content := prompt }] (mkRat 4 10)
      = Except.ok content) :
    (strStartsWith (strTrimStart content) "#" = true →
      generateDoc env config system_prompt prompt
        = (Except.ok content,
           [⟨config.llm,
             [{ role := "system", content := system_prompt },
              { role := "user", content := prompt }], mkRat 4 10,
             Except.ok content⟩]))
    ∧ (strStartsWith (strTrimStart content) "#" = false →
        ∀ retry : String,
          env.gen config.llm
              [{ role := "system", content := system_prompt },
               { role := "user", content := prompt ++
                 "\n\nIMPORTANT: Start with a # heading. Output only valid Markdown." }]
              (mkRat 3 10)
            = Except.ok retry →
          generateDoc env config system_prompt prompt
            = (Except.ok retry,
               [⟨config.llm,
                 [{ role := "system", content := system_prompt },
                  { role := "user", content := prompt }], mkRat 4 10,
                 Except.ok content⟩,
                ⟨config.llm,
                 [{ role := "system", content := system_prompt },
                  { role := "user", content := prompt ++
                    "\n\nIMPORTANT: Start with a # heading. Output only valid Markdown." }],
                 mkRat 3 10, Except.ok retry⟩])) := by
  constructor
  · intro hpass
    simp only [generateDoc]
    rw [hfirst]
    dsimp only
    rw [if_pos hpass]
  · intro hfail retry hretry
    simp only [generateDoc]
    rw [hfirst]
    dsimp only
    rw [if_neg (by simp [hfail])]
    rw [hretry]

/-- C9 witness: a provider returning a heading-less draft and a heading-less
retry still yields the retry output, with exactly the two recorded calls. -/
theorem generate_doc_retry_policy_witness :
    generateDoc headinglessProviderEnv sampleConfig "sys" "prompt"
      = (Except.ok "retry also without heading",
         [⟨sampleConfig.llm,
           [{ role := "system", content := "sys" },
            { role := "user", content := "prompt" }], mkRat 4 10,
           Except.ok "no heading here"⟩,
          ⟨sampleConfig.llm,
           [{ role := "system", content := "sys" },
            { role := "user", content := "prompt\n\nIMPORTANT: Start with a # heading. Output only valid Markdown." }],
           mkRat 3 10, Except.ok "retry also without heading"⟩]) :=
  (generate_doc_retry_policy headinglessProviderEnv sampleConfig "sys" "prompt"
      "no heading here" (by decide)).2 (by decide)
    "retry also without heading" (by decide)

/-! ## Lemmas on the streaming loops -/

theorem processChoices_no_done :
    ∀ choices : List OpenAiStreamChoice, (processChoices choices).2.2 = false →
      (processChoices choices).2.1.countP isDoneEv = 0
  | [], _ => rfl
  | ch :: rest, h => by
    simp only [processChoices] at h ⊢
    rcases hc : ch.delta.content with _ | s
    all_goals rw [hc] at h
    all_goals dsimp only at h ⊢
    all_goals split_ifs at h ⊢
    all_goals first
      | (simp at h
         done)
      | (dsimp only
         rw [List.nil_append, processChoices_no_done rest h])
      | (dsimp only
         rw [List.countP_append, processChoices_no_done rest h]
         simp [isDoneEv])

theorem drainOllama_no_done (parse : String → Option OllamaStreamResponse) :
    ∀ (fuel : Nat) (buf : List Char),
      (drainOllama parse fuel buf).2.2.2 = false →
        (drainOllama parse fuel buf).2.2.1.countP isDoneEv = 0
  | 0, _, _ => rfl
  | Nat.succ fuel, buf, h => by
    simp only [drainOllama] at h ⊢
    rcases hsp : splitAtNewline buf with _ | ⟨before, after⟩
    · rfl
    · rw [hsp] at h
      dsimp only at h ⊢
      split_ifs at h ⊢ with hempty
      · exact drainOllama_no_done parse fuel after h
      · rcases hp : parse (strTrim (String.mk before)) with _ | parsed
        · rw [hp] at h
          exact drainOllama_no_done parse fuel after h
        · rw [hp] at h
          dsimp only at h ⊢
          split_ifs at h ⊢
          all_goals first
            | (simp at h
               done)
            | (dsimp only
               rw [List.nil_append, drainOllama_no_done parse fuel after h])
            | (dsimp only
               rw [List.countP_append, drainOllama_no_done parse fuel after h]
               simp [isDoneEv])

theorem ollamaRemainder_no_done (parse : String → Option OllamaStreamResponse)
    (buf : List Char) (h : (ollamaRemainder parse buf).2.2 = false) :
    (ollamaRemainder parse buf).2.1.countP isDoneEv = 0 := by
  simp only [ollamaRemainder] at h ⊢
  split_ifs at h ⊢ with hempty
  · rfl
  · rcases hp : parse (strTrim (String.mk buf)) with _ | parsed
    · rfl
    · rw [hp] at h
      dsimp only at h ⊢
      split_ifs at h ⊢
      all_goals first
        | (simp at h
           done)
        | (dsimp only
           rfl)

theorem ollamaFinish_done_checks (parse : String → Option OllamaStreamResponse)
    (cancel : Option (Nat → Bool)) (n : Nat) (buf : List Char) :
    (ollamaFinish parse cancel n buf true).checks = [] := by
  simp [ollamaFinish]

theorem drainOpenAi_no_done (parse : String → Option OpenAiStreamResponse) :
    ∀ (fuel : Nat) (buf : List Char),
      (drainOpenAi parse fuel buf).2.2.2 = false →
        (drainOpenAi parse fuel buf).2.2.1.countP isDoneEv = 0
  | 0, _, _ => rfl
  | Nat.succ fuel, buf, h => by
    simp only [drainOpenAi] at h ⊢
    rcases hsp : splitAtNewline buf with _ | ⟨before, after⟩
    · rfl
    · rw [hsp] at h
      dsimp only at h ⊢
      split_ifs at h ⊢ with hskip hdata hdone
      · exact drainOpenAi_no_done parse fuel after h
      · rcases hp : parse (strTrim (stripPrefixRepeated "data:"
            (strTrim (String.mk before)))) with _ | parsed
        · rw [hp] at h
          exact drainOpenAi_no_done parse fuel after h
        · rw [hp] at h
          dsimp only at h ⊢
          rw [Bool.or_eq_false_iff] at h
          rw [List.countP_append, processChoices_no_done parsed.choices h.1,
            drainOpenAi_no_done parse fuel after h.2]
      · exact drainOpenAi_no_done parse fuel after h

theorem ollamaLoop_cancel (parse : String → Option OllamaStreamResponse)
    (cancel : Option (Nat → Bool)) :
    ∀ (chunks : List (List Nat)) (n : Nat) (buf : List Char),
      ((ollamaLoop parse cancel chunks n buf).checks.any fun b => b) = true →
        (ollamaLoop parse cancel chunks n buf).result
            = Except.error AppError.StreamCancelled
        ∧ (ollamaLoop parse cancel chunks n buf).events.countP isDoneEv = 1
        ∧ (ollamaLoop parse cancel chunks n buf).events.getLast?
            = some StreamEv.done
  | [], n, buf => by
    intro hany
    cases hrem : (ollamaRemainder parse buf).2.2
    case true =>
      have hfin : ollamaLoop parse cancel [] n buf
          = { result := Except.ok (ollamaRemainder parse buf).1,
              events := (ollamaRemainder parse buf).2.1, checks := [] } := by
        simp only [ollamaLoop, ollamaFinish]
        rw [hrem]
        rfl
      rw [hfin] at hany
      simp at hany
    case false =>
      rcases cancel with _ | flag
      · have hfin : ollamaLoop parse none [] n buf
            = { result := Except.error AppError.StreamInterrupted,
                events := (ollamaRemainder parse buf).2.1, checks := [] } := by
          simp only [ollamaLoop, ollamaFinish]
          rw [hrem]
          rfl
        rw [hfin] at hany
        simp at hany
      · cases hflag : flag n
        case false =>
          have hfin : ollamaLoop parse (some flag) [] n buf
              = { result := Except.error AppError.StreamInterrupted,
                  events := (ollamaRemainder parse buf).2.1, checks := [false] } := by
            simp only [ollamaLoop, ollamaFinish]
            rw [hrem, hflag]
            rfl
          rw [hfin] at hany
          simp at hany
        case true =>
          have hfin : ollamaLoop parse (some flag) [] n buf
              = { result := Except.error AppError.StreamCancelled,
                  events := (ollamaRemainder parse buf).2.1 ++ [StreamEv.done],
                  checks := [true] } := by
            simp only [ollamaLoop, ollamaFinish]
            rw [hrem, hflag]
            rfl
          rw [hfin]
          refine ⟨rfl, ?_, ?_⟩
          · rw [List.countP_append, ollamaRemainder_no_done parse buf hrem]
            rfl
          · rw [List.getLast?_append]
            rfl
  | chunk :: rest, n, buf => by
    intro hany
    simp only [ollamaLoop] at hany ⊢
    split_ifs at hany ⊢ with hchk hdone
    · exact ⟨rfl, by decide, rfl⟩
    · have hct : ((cancel.map fun flag => flag n).toList.any fun b => b)
          = false := by
        rcases cancel with _ | flag
        · rfl
        · cases hfn : flag n
          · simp [hfn]
          · exfalso
            apply hchk
            simp [hfn]
      rw [ollamaFinish_done_checks, List.any_append, hct] at hany
      simp at hany
    · have hct : ((cancel.map fun flag => flag n).toList.any fun b => b)
          = false := by
        rcases cancel with _ | flag
        · rfl
        · cases hfn : flag n
          · simp [hfn]
          · exfalso
            apply hchk
            simp [hfn]
      rw [List.any_append, hct, Bool.false_or] at hany
      dsimp only
      rcases ollamaLoop_cancel parse cancel rest (n + 1)
          ((drainOllama parse (buf ++ utf8Lossy chunk).length
            (buf ++ utf8Lossy chunk)).1) hany with ⟨h1, h2, h3⟩
      refine ⟨?_, ?_, ?_⟩
      · rw [h1]
        rfl
      · rw [List.countP_append, h2,
          drainOllama_no_done parse _ _ (by simpa using hdone)]
      · rw [List.getLast?_append, h3]
        rfl

theorem openAiLoop_cancel (parse : String → Option OpenAiStreamResponse)
    (cancel : Option (Nat → Bool)) :
    ∀ (chunks : List (List Nat)) (n : Nat) (buf : List Char),
      ((openAiLoop parse cancel chunks n buf).checks.any fun b => b) = true →
        (openAiLoop parse cancel chunks n buf).result
            = Except.error AppError.StreamCancelled
        ∧ (openAiLoop parse cancel chunks n buf).events.countP isDoneEv = 1
        ∧ (openAiLoop parse cancel chunks n buf).events.getLast?
            = some StreamEv.done
  | [], n, buf => by
    intro hany
    simp only [openAiLoop] at hany ⊢
    rcases cancel with _ | flag
    · simp at hany
    · dsimp only at hany ⊢
      split_ifs at hany ⊢ with hflag
      · exact ⟨rfl, by decide, rfl⟩
      · simp at hany
  | chunk :: rest, n, buf => by
    intro hany
    simp only [openAiLoop] at hany ⊢
    split_ifs at hany ⊢ with hchk hdone
    · exact ⟨rfl, by decide, rfl⟩
    · have hct : ((cancel.map fun flag => flag n).toList.any fun b => b)
          = false := by
        rcases cancel with _ | flag
        · rfl
        · cases hfn : flag n
          · simp [hfn]
          · exfalso
            apply hchk
            simp [hfn]
      dsimp only at hany
      rw [hct] at hany
      simp at hany
    · have hct : ((cancel.map fun flag => flag n).toList.any fun b => b)
          = false := by
        rcases cancel with _ | flag
        · rfl
        · cases hfn : flag n
          · simp [hfn]
          · exfalso
            apply hchk
            simp [hfn]
      rw [List.any_append, hct, Bool.false_or] at hany
      dsimp only
      rcases openAiLoop_cancel parse cancel rest (n + 1)
          ((drainOpenAi parse (buf ++ utf8Lossy chunk).length
            (buf ++ utf8Lossy chunk)).1) hany with ⟨h1, h2, h3⟩
      refine ⟨?_, ?_, ?_⟩
      · rw [h1]
        rfl
      · rw [List.countP_append, h2,
          drainOpenAi_no_done parse _ _ (by simpa using hdone)]
      · rw [List.getLast?_append, h3]
        rfl

/-- C7: on either streaming backend, a call that observes its cancellation
flag set at any of its checkpoints emits exactly one terminal `Done` event,
emits it last, and returns the distinguished `StreamCancelled` error —
never a content-layer error, never zero or two `Done` events. -/
theorem stream_cancel_single_done :
    (∀ (parse : String → Option OllamaStreamResponse)
        (cancel : Option (Nat → Bool)) (chunks : List (List Nat)),
      ((ollamaLoop parse cancel chunks 0 []).checks.any fun b => b) = true →
        (ollamaLoop parse cancel chunks 0 []).result
            = Except.error AppError.StreamCancelled
        ∧ (ollamaLoop parse cancel chunks 0 []).events.countP isDoneEv = 1
        ∧ (ollamaLoop parse cancel chunks 0 []).events.getLast?
            = some StreamEv.done)
    ∧ (∀ (parse : String → Option OpenAiStreamResponse)
        (cancel : Option (Nat → Bool)) (chunks : List (List Nat)),
      ((openAiLoop parse cancel chunks 0 []).checks.any fun b => b) = true →
        (openAiLoop parse cancel chunks 0 []).result
            = Except.error AppError.StreamCancelled
        ∧ (openAiLoop parse cancel chunks 0 []).events.countP isDoneEv = 1
        ∧ (openAiLoop parse cancel chunks 0 []).events.getLast?
            = some StreamEv.done) :=
  ⟨fun parse cancel chunks => ollamaLoop_cancel parse cancel chunks 0 [],
   fun parse cancel chunks => openAiLoop_cancel parse cancel chunks 0 []⟩

/-- C7 witness: concrete cancelled calls on both backends — flag set before
the first read — emit the single terminal `Done` and return
`StreamCancelled`. -/
theorem stream_cancel_single_done_witness :
    ((ollamaLoop parseOllamaLineSimple (some fun _ => true) [[104, 105]]
        0 []).result = Except.error AppError.StreamCancelled
      ∧ (ollamaLoop parseOllamaLineSimple (some fun _ => true) [[104, 105]]
          0 []).events.countP isDoneEv = 1
      ∧ (ollamaLoop parseOllamaLineSimple (some fun _ => true) [[104, 105]]
          0 []).events.getLast? = some StreamEv.done)
    ∧ ((openAiLoop (fun _ => none) (some fun _ => true) [[104, 105]]
        0 []).result = Except.error AppError.StreamCancelled
      ∧ (openAiLoop (fun _ => none) (some fun _ => true) [[104, 105]]
          0 []).events.countP isDoneEv = 1
      ∧ (openAiLoop (fun _ => none) (some fun _ => true) [[104, 105]]
          0 []).events.getLast? = some StreamEv.done) :=
  ⟨stream_cancel_single_done.1 parseOllamaLineSimple (some fun _ => true)
      [[104, 105]] (by decide),
   stream_cancel_single_done.2 (fun _ => none) (some fun _ => true)
      [[104, 105]] (by decide)⟩

/-- C6 (claim refuted — code bug): the same byte stream, the NDJSON line
`{"message":{"content":"é"},"done":true}\n`, delivered whole versus split
between the two UTF-8 bytes of `é`, is decoded per chunk by
`String::from_utf8_lossy`, so the split delivery corrupts the content into
two U+FFFD replacement characters: the accumulated response text differs
although the concatenated bytes are identical, contradicting
split-at-any-byte-offset invariance. -/
theorem stream_chunking_divergence :
    eDocChunksWhole.flatten = eDocChunksSplit.flatten
    ∧ (ollamaLoop parseOllamaLineSimple none eDocChunksWhole 0 []).result
        = Except.ok "é"
    ∧ (ollamaLoop parseOllamaLineSimple none eDocChunksSplit 0 []).result
        = Except.ok "��"
    ∧ (ollamaLoop parseOllamaLineSimple none eDocChunksWhole 0 []).result
        ≠ (ollamaLoop parseOllamaLineSimple none eDocChunksSplit 0 []).result := by
  refine ⟨by decide, by decide, by decide, ?_⟩
  decide

/-- C8 counterexample: the provider client does not support three backend
kinds — `ProviderKind` has no three pairwise distinct values, and in
particular no batch-messages kind exists. -/
theorem provider_three_kinds_counterexample :
    ¬ ∃ a b c : ProviderKind, a ≠ b ∧ a ≠ c ∧ b ≠ c := by
  rintro ⟨a, b, c, hab, hac, hbc⟩
  cases a <;> cases b <;> cases c <;> simp_all

/-- C8 (amended): the provider client supports exactly two backend kinds —
the Ollama local daemon (`"ollama"`) and the OpenAI-compatible backend
(`"openai_compatible"`, `"openai-compatible"`, `"lmstudio"`), matched after
trimming and ASCII lower-casing — and every other provider string is
rejected with a `Validation` error. -/
theorem provider_two_kinds (s : String) :
    (∀ k : ProviderKind, k = ProviderKind.Ollama ∨ k = ProviderKind.OpenAiCompatible)
    ∧ (asciiLower (strTrim s) = "ollama" →
        ProviderKind.from_provider s = Except.ok ProviderKind.Ollama)
    ∧ (asciiLower (strTrim s) = "openai_compatible"
        ∨ asciiLower (strTrim s) = "openai-compatible"
        ∨ asciiLower (strTrim s) = "lmstudio" →
        ProviderKind.from_provider s = Except.ok ProviderKind.OpenAiCompatible)
    ∧ (asciiLower (strTrim s) ≠ "ollama"
        → asciiLower (strTrim s) ≠ "openai_compatible"
        → asciiLower (strTrim s) ≠ "openai-compatible"
        → asciiLower (strTrim s) ≠ "lmstudio"
        → ProviderKind.from_provider s
            = Except.error (AppError.Validation
                ("Unsupported local provider \x27" ++ asciiLower (strTrim s)
                  ++ "\x27"))) := by
  refine ⟨fun k => by cases k <;> simp, ?_, ?_, ?_⟩
  · intro h
    simp only [ProviderKind.from_provider]
    rw [if_pos h]
  · intro h
    simp only [ProviderKind.from_provider]
    rw [if_neg ?_, if_pos h]
    rcases h with h | h | h <;> simp [h]
  · intro h1 h2 h3 h4
    simp only [ProviderKind.from_provider]
    rw [if_neg h1, if_neg ?_]
    simp [h2, h3, h4]

/-- C8 witness: the three aliases and an unknown provider string behave as
characterized. -/
theorem provider_two_kinds_witness :
    ProviderKind.from_provider " Ollama " = Except.ok ProviderKind.Ollama
    ∧ ProviderKind.from_provider "LMStudio"
        = Except.ok ProviderKind.OpenAiCompatible
    ∧ ProviderKind.from_provider "remote_cloud"
        = Except.error (AppError.Validation
            ("Unsupported local provider \x27remote_cloud\x27")) := by
  refine ⟨(provider_two_kinds " Ollama ").2.1 (by decide),
    (provider_two_kinds "LMStudio").2.2.1 (Or.inr (Or.inr (by decide))), ?_⟩
  have h := (provider_two_kinds "remote_cloud").2.2.2 (by decide) (by decide)
    (by decide) (by decide)
  rw [h]
  decide

end AuraForge
